import Mathlib

/-! # ibenc: probe orchestration, metric projection and remote write

A shallow embedding of `iperf3/runner.go`, `metrics/exporter.go`,
`remote/writer.go`, `config/config.go` and `main.go`.

Conventions of the embedding:

* `float64` values are rationals (`ℚ`): every float the program handles is
  decoded from a JSON report or derived from such values, so it is finite.
  Comparisons and the selection logic are exact.  The float64 division of the
  throughput by 1,000,000 is rounded to the nearest float64, ties to even,
  subnormals included (`divFloat64`), so that a quotient that underflows is 0 in
  the embedding as in the program.  The quotient of the integer `rtt` (and
  `rttvar`) by 1000 is kept exact: it cannot underflow, and rounding changes
  neither its sign nor whether it is zero.
* Go's `(value, error)` results are `Except String _`.
* The outside world (the `iperf3` subprocess, the clock, the HTTP client) is a
  parameter, threaded as explicit state.
* `log.Printf` calls are not modelled.
-/

namespace Ibenc

/-! ## iperf3/runner.go -/

/-- TestResult contains the parsed iperf3 results (`TestResult`); the Go zero
value is the default. -/
structure TestResult where
  DownloadMbps : ℚ := 0
  UploadMbps : ℚ := 0
  JitterMs : ℚ := 0
  LatencyMs : ℚ := 0
  PacketLossPercent : ℚ := 0
deriving DecidableEq

/-- One record of `Iperf3Output.End.Streams`; of its fields `RunTest` reads
`Rtt` and `Rttvar` only. -/
structure EndStream where
  Rtt : Int := 0
  Rttvar : Int := 0
deriving DecidableEq

/-- The `End` section of `Iperf3Output`: the stream records and the
`bits_per_second` of `sum`, `sum_sent` and `sum_received`.  A field absent from
the JSON text keeps the Go zero value. -/
structure Iperf3Output where
  Streams : List EndStream := []
  SumBitsPerSecond : ℚ := 0
  SumSentBitsPerSecond : ℚ := 0
  SumReceivedBitsPerSecond : ℚ := 0
deriving DecidableEq

/-- What `cmd.CombinedOutput()` hands back: the captured output and the error,
if any. -/
structure CmdOutput where
  output : String
  err : Option String

/-- The command line built at the top of `RunTest`. -/
def iperf3Args (server : String) (port duration : Int) (reverse : Bool) : List String :=
  let args := ["-c", server, "-p", toString port, "-t", toString duration, "-J"]
  if reverse then args ++ ["-R"] else args

/-- The integer nearest to `n / d` (for `d > 0`), the even one of the two when
`n / d` lies halfway between them. -/
def roundHalfEven (n d : Nat) : Nat :=
  let f := n / d
  let r := n % d
  if 2 * r < d then f
  else if d < 2 * r then f + 1
  else if f % 2 = 0 then f else f + 1

/-- The number of binary digits of `n`; `fuel` bounds the recursion and `n`
itself is always enough. -/
def bitLength : Nat → Nat → Nat
  | 0, _ => 0
  | fuel + 1, n => if n = 0 then 0 else bitLength fuel (n / 2) + 1

/-- The integer `e` with `2 ^ e ≤ n / d < 2 ^ (e + 1)`, for `n, d > 0`. -/
def floorLog2 (n d : Nat) : Int :=
  let e0 : Int := (bitLength n n : Int) - (bitLength d d : Int)
  if e0 ≥ 0 then (if 2 ^ e0.toNat * d ≤ n then e0 else e0 - 1)
  else (if d ≤ n * 2 ^ (-e0).toNat then e0 else e0 - 1)

/-- The float64 nearest to the rational `q` (IEEE 754 binary64, round to nearest,
ties to even): `q` is rounded to a multiple of `2 ^ (e - 52)`, where `e` is the
binary exponent of `q` and at least -1022, so that below `2 ^ -1022` the
multiples are those of `2 ^ -1074` (the subnormals) and a magnitude of at most
`2 ^ -1075` becomes 0.  Overflow to infinity is not represented: the function is
the float64 rounding for magnitudes below `2 ^ 1024`. -/
def roundFloat64 (q : ℚ) : ℚ :=
  if q = 0 then 0 else
  let n := q.num.natAbs
  let d := q.den
  let e := max (floorLog2 n d) (-1022)
  let s := e - 52
  let m : Nat :=
    if s ≥ 0 then roundHalfEven n (d * 2 ^ s.toNat) else roundHalfEven (n * 2 ^ (-s).toNat) d
  let mag : ℚ :=
    if s ≥ 0 then ((m * 2 ^ s.toNat : Nat) : ℚ) else (m : ℚ) / ((2 ^ (-s).toNat : Nat) : ℚ)
  if q < 0 then -mag else mag

/-- The float64 division `a / b` of Go, for float64 values `a` and `b ≠ 0`:
the exact quotient rounded to the nearest float64.  The quotient of a float64 by
1,000,000 never overflows. -/
def divFloat64 (a b : ℚ) : ℚ := roundFloat64 (a / b)

/-- Lines 122-158 of `RunTest`: the measurement read off a decoded report. -/
def parseReport (iperf3Out : Iperf3Output) (reverse : Bool) : TestResult :=
  let result : TestResult := {}
  let result :=
    if h : 0 < iperf3Out.Streams.length then
      let bitsPerSecond : ℚ :=
        if reverse = true ∧ iperf3Out.SumReceivedBitsPerSecond > 0 then
          iperf3Out.SumReceivedBitsPerSecond
        else if reverse = false ∧ iperf3Out.SumSentBitsPerSecond > 0 then
          iperf3Out.SumSentBitsPerSecond
        else
          iperf3Out.SumBitsPerSecond
      let mbps := divFloat64 bitsPerSecond 1000000
      let result :=
        if reverse then { result with DownloadMbps := mbps }
        else { result with UploadMbps := mbps }
      let lastStream :=
        iperf3Out.Streams.get ⟨iperf3Out.Streams.length - 1, Nat.sub_lt h Nat.one_pos⟩
      { result with
          LatencyMs := (lastStream.Rtt : ℚ) / 1000
          JitterMs := (lastStream.Rttvar : ℚ) / 1000 }
    else result
  { result with PacketLossPercent := 0 }

/-- RunTest executes iperf3 test against the server.  `exec` stands for running
the `iperf3` command in world `w`, `unmarshal` for `json.Unmarshal` into
`Iperf3Output`. -/
def RunTest {σ : Type} (exec : List String → σ → CmdOutput × σ)
    (unmarshal : String → Except String Iperf3Output)
    (server : String) (port duration : Int) (reverse : Bool) (w : σ) :
    Except String TestResult × σ :=
  let (out, w) := exec ("iperf3" :: iperf3Args server port duration reverse) w
  match out.err with
  | some err =>
    (.error ("iperf3 command failed: " ++ err ++ ", output: " ++ out.output), w)
  | none =>
    match unmarshal out.output with
    | .error err => (.error ("failed to parse iperf3 JSON output: " ++ err), w)
    | .ok iperf3Out => (.ok (parseReport iperf3Out reverse), w)

/-- The variables of `RunBothTests` that its two loops update, the world, and a
record of the `reverse` flag of every `RunTest` call made so far. -/
structure BothState (σ : Type) where
  result : TestResult
  err : Option String
  uploadResult : Option TestResult
  world : σ
  calls : List Bool

/-- The download loop of `RunBothTests` (lines 169-180).  `fuel` bounds the
number of iterations; `attempt` and `maxRetries` are the source's. -/
def downloadLoop {σ : Type} (runTest : Bool → σ → Except String TestResult × σ)
    (maxRetries : Nat) : Nat → Nat → BothState σ → BothState σ
  | 0, _, st => st
  | fuel + 1, attempt, st =>
    if attempt < maxRetries then
      match runTest true st.world with
      | (.ok downloadResult, w) =>
        { st with
            result := { st.result with
              DownloadMbps := downloadResult.DownloadMbps
              LatencyMs := downloadResult.LatencyMs
              JitterMs := downloadResult.JitterMs }
            err := none
            world := w
            calls := st.calls ++ [true] }
      | (.error e, w) =>
        downloadLoop runTest maxRetries fuel (attempt + 1)
          { st with err := some e, world := w, calls := st.calls ++ [true] }
    else st

/-- The upload loop of `RunBothTests` (lines 187-195). -/
def uploadLoop {σ : Type} (runTest : Bool → σ → Except String TestResult × σ)
    (maxRetries : Nat) : Nat → Nat → BothState σ → BothState σ
  | 0, _, st => st
  | fuel + 1, attempt, st =>
    if attempt < maxRetries then
      match runTest false st.world with
      | (.ok uploadResult, w) =>
        { st with
            uploadResult := some uploadResult
            err := none
            world := w
            calls := st.calls ++ [false] }
      | (.error e, w) =>
        uploadLoop runTest maxRetries fuel (attempt + 1)
          { st with
              uploadResult := none
              err := some e
              world := w
              calls := st.calls ++ [false] }
    else st

/-- The message of the Go runtime panic raised when a nil pointer is
dereferenced. -/
def nilDeref : String := "runtime error: invalid memory address or nil pointer dereference"

/-- What a call of `RunBothTests` leaves behind: the returned pair, the world,
and the `reverse` flags of the `RunTest` calls it made, in order. -/
structure BothOutcome (σ : Type) where
  res : Except String TestResult
  world : σ
  calls : List Bool

/-- Lines 197-218 of `RunBothTests`: the return value computed from the
variables once both loops are over.  `uploadResult` is nil with `err` nil only
if the upload loop never ran. -/
def combine (result : TestResult) (err : Option String)
    (uploadResult : Option TestResult) : Except String TestResult :=
  match err with
  | some _ =>
    if result.DownloadMbps = 0 then
      .error "both download and upload tests failed"
    else
      .ok result
  | none =>
    match uploadResult with
    | none => .error nilDeref
    | some uploadResult =>
      let result := { result with UploadMbps := uploadResult.UploadMbps }
      let result :=
        if uploadResult.LatencyMs > 0 ∧
            (result.LatencyMs = 0 ∨ uploadResult.LatencyMs < result.LatencyMs) then
          { result with LatencyMs := uploadResult.LatencyMs }
        else result
      let result :=
        if uploadResult.JitterMs > 0 ∧
            (result.JitterMs = 0 ∨ uploadResult.JitterMs < result.JitterMs) then
          { result with JitterMs := uploadResult.JitterMs }
        else result
      .ok result

/-- RunBothTests runs both download and upload tests, with graceful fallback and
retries.  `runTest reverse` stands for `RunTest(server, port, duration, reverse)`. -/
def RunBothTests {σ : Type} (runTest : Bool → σ → Except String TestResult × σ)
    (w : σ) : BothOutcome σ :=
  let maxRetries := 2
  let st : BothState σ :=
    { result := {}, err := none, uploadResult := none, world := w, calls := [] }
  let st := downloadLoop runTest maxRetries maxRetries 0 st
  let st := uploadLoop runTest maxRetries maxRetries 0 st
  { res := combine st.result st.err st.uploadResult, world := st.world, calls := st.calls }

/-- A probe that replays a fixed list of outcomes, one per call, whatever the
direction asked for; once the list is used up every call fails. -/
def scripted : Bool → List (Except String TestResult) →
    Except String TestResult × List (Except String TestResult)
  | _, [] => (.error "no outcome left", [])
  | _, o :: rest => (o, rest)

/-- The attempts of one direction, started in world `w`, end in success with
result `r` and leave world `w'`: the first attempt succeeds, or it fails and the
second one succeeds. -/
def DirSucceeds {σ : Type} (runTest : Bool → σ → Except String TestResult × σ)
    (reverse : Bool) (w : σ) (r : TestResult) (w' : σ) : Prop :=
  runTest reverse w = (.ok r, w') ∨
    ∃ e w1, runTest reverse w = (.error e, w1) ∧ runTest reverse w1 = (.ok r, w')

/-- Both attempts of one direction, started in world `w`, fail and leave world
`w'`. -/
def DirFails {σ : Type} (runTest : Bool → σ → Except String TestResult × σ)
    (reverse : Bool) (w : σ) (w' : σ) : Prop :=
  ∃ e1 w1 e2, runTest reverse w = (.error e1, w1) ∧ runTest reverse w1 = (.error e2, w')

/-- The merge law as the specification words it: `r` is the smaller of `a` and
`b` when both are non-zero, the non-zero one when exactly one is zero, and zero
when both are. -/
def MergeLaw (a b r : ℚ) : Prop :=
  (a ≠ 0 ∧ b ≠ 0 → r = min a b) ∧
  (a = 0 ∧ b ≠ 0 → r = b) ∧
  (a ≠ 0 ∧ b = 0 → r = a) ∧
  (a = 0 ∧ b = 0 → r = 0)

/-- The part of a download result that `RunBothTests` copies into its result. -/
def downloadPart (a : TestResult) : TestResult :=
  { DownloadMbps := a.DownloadMbps, LatencyMs := a.LatencyMs, JitterMs := a.JitterMs }

/-- The value `combine` keeps for latency (or jitter): the upload value when it
is positive and the download value is zero or larger, the download value
otherwise. -/
def pick (a b : ℚ) : ℚ := if b > 0 ∧ (a = 0 ∨ b < a) then b else a


/-! ## The client_model and prompb messages

Pointer-valued fields are `Option`s and slices of pointers are lists of
`Option`s: `none` is the nil pointer. -/

/-- Message `io_prometheus_client.LabelPair`. -/
structure LabelPair where
  Name : Option String := none
  Value : Option String := none
deriving DecidableEq

/-- Message `io_prometheus_client.Gauge`. -/
structure Gauge where
  Value : Option ℚ := none
deriving DecidableEq

/-- Message `io_prometheus_client.Counter`; the fields `WriteMetrics` does not read are
left out. -/
structure Counter where
  Value : Option ℚ := none
deriving DecidableEq

/-- Message `io_prometheus_client.Untyped`. -/
structure Untyped where
  Value : Option ℚ := none
deriving DecidableEq

/-- Message `io_prometheus_client.MetricType`. -/
inductive MetricType where
  | COUNTER
  | GAUGE
  | SUMMARY
  | UNTYPED
  | HISTOGRAM
  | GAUGE_HISTOGRAM
deriving DecidableEq

/-- Message `io_prometheus_client.Metric`.  `Summary` and `Histogram` are kept as
presence markers only: none of the code reads inside them. -/
structure Metric where
  Label : List (Option LabelPair) := []
  Gauge : Option Gauge := none
  Counter : Option Counter := none
  Summary : Option Unit := none
  Untyped : Option Untyped := none
  Histogram : Option Unit := none
  TimestampMs : Option Int := none
deriving DecidableEq

/-- Message `io_prometheus_client.MetricFamily`; `MType` is the field `Type`. -/
structure MetricFamily where
  Name : Option String := none
  Help : Option String := none
  MType : Option MetricType := none
  Metric : List (Option Metric) := []
deriving DecidableEq

/-- Message `prompb.Label`. -/
structure Label where
  Name : String
  Value : String
deriving DecidableEq

/-- Message `prompb.Sample`. -/
structure Sample where
  Value : ℚ
  Timestamp : Int
deriving DecidableEq

/-- Message `prompb.TimeSeries`. -/
structure TimeSeries where
  Labels : List Label
  Samples : List Sample
deriving DecidableEq

/-! ## metrics/exporter.go -/

/-- MetricLabels holds the labels for metrics. -/
structure MetricLabels where
  Location : String
  ISPName : String
  PackageName : String
deriving DecidableEq

/-- Function createGaugeMetric creates a Prometheus gauge metric. -/
def createGaugeMetric (name help : String) (value : ℚ) (labels : MetricLabels)
    (timestamp : Int) : Option MetricFamily :=
  some
    { Name := some name
      Help := some help
      MType := some MetricType.GAUGE
      Metric := [
        some
          { Label := [
              some { Name := some "location", Value := some labels.Location },
              some { Name := some "isp_name", Value := some labels.ISPName },
              some { Name := some "package_name", Value := some labels.PackageName } ]
            Gauge := some { Value := some value }
            TimestampMs := some timestamp } ] }

/-- ExportMetrics converts test results to Prometheus metrics.  `now` is the
value of `time.Now().UnixMilli()` read on entry. -/
def ExportMetrics (now : Int) (result : TestResult) (labels : MetricLabels) :
    List (Option MetricFamily) :=
  let timestamp := now
  let metrics : List (Option MetricFamily) := []
  let metrics := metrics ++ [createGaugeMetric "ibenc_download_speed_mbps"
    "Download speed in Mbps" result.DownloadMbps labels timestamp]
  let metrics := metrics ++ [createGaugeMetric "ibenc_upload_speed_mbps"
    "Upload speed in Mbps" result.UploadMbps labels timestamp]
  let metrics := metrics ++ [createGaugeMetric "ibenc_jitter_ms"
    "Jitter in milliseconds" result.JitterMs labels timestamp]
  let metrics := metrics ++ [createGaugeMetric "ibenc_latency_ms"
    "Latency in milliseconds" result.LatencyMs labels timestamp]
  let metrics := metrics ++ [createGaugeMetric "ibenc_packet_loss_percent"
    "Packet loss percentage" result.PacketLossPercent labels timestamp]
  metrics

/-! ## remote/writer.go -/

/-- Config holds Grafana Cloud authentication and endpoint details. -/
structure Config where
  PrometheusURL : String
  Username : String
  Password : String

/-- The loop over `m.Label` (lines 57-62): every pair is appended to `labels`;
a nil pair, name or value panics. -/
def appendLabels : List (Option LabelPair) → List Label → Except String (List Label)
  | [], labels => .ok labels
  | none :: _, _ => .error nilDeref
  | some lp :: rest, labels =>
    match lp.Name, lp.Value with
    | some name, some value => appendLabels rest (labels ++ [{ Name := name, Value := value }])
    | _, _ => .error nilDeref

/-- The switch of lines 65-75: the value of the first of gauge, counter and
untyped that is set; `.ok none` is the `default: continue` branch, `.error` a nil
`Value` pointer. -/
def metricValue (m : Metric) : Except String (Option ℚ) :=
  match m.Gauge, m.Counter, m.Untyped with
  | some g, _, _ =>
    match g.Value with
    | some v => .ok (some v)
    | none => .error nilDeref
  | none, some c, _ =>
    match c.Value with
    | some v => .ok (some v)
    | none => .error nilDeref
  | none, none, some u =>
    match u.Value with
    | some v => .ok (some v)
    | none => .error nilDeref
  | none, none, none => .ok none

/-- The loop over `mf.Metric` (lines 46-92).  The state is `timeseries` and the
number of times `time.Now()` has been read; the `k`-th read returns `clock k`. -/
def metricLoop (clock : Nat → Int) (mfName : Option String) :
    List (Option Metric) → List TimeSeries × Nat → Except String (List TimeSeries × Nat)
  | [], st => .ok st
  | m :: rest, (timeseries, reads) =>
    match mfName with
    | none => .error nilDeref
    | some name =>
      match m with
      | none => .error nilDeref
      | some m =>
        match appendLabels m.Label [{ Name := "__name__", Value := name }] with
        | .error e => .error e
        | .ok labels =>
          match metricValue m with
          | .error e => .error e
          | .ok none => metricLoop clock mfName rest (timeseries, reads)
          | .ok (some value) =>
            let timestamp := clock reads
            let ts : TimeSeries :=
              { Labels := labels, Samples := [{ Value := value, Timestamp := timestamp }] }
            metricLoop clock mfName rest (timeseries ++ [ts], reads + 1)

/-- The loop over `metrics` (lines 45-93); a nil family panics. -/
def familyLoop (clock : Nat → Int) :
    List (Option MetricFamily) → List TimeSeries × Nat → Except String (List TimeSeries × Nat)
  | [], st => .ok st
  | none :: _, _ => .error nilDeref
  | some mf :: rest, st =>
    match metricLoop clock mf.Name mf.Metric st with
    | .error e => .error e
    | .ok st => familyLoop clock rest st

/-- Lines 43-93 of `WriteMetrics`: the time series built from the metric
families; `.error` is a runtime panic. -/
def buildTimeseries (clock : Nat → Int) (metrics : List (Option MetricFamily)) :
    Except String (List TimeSeries) :=
  match familyLoop clock metrics ([], 0) with
  | .error e => .error e
  | .ok (timeseries, _) => .ok timeseries

/-- The request handed to `client.Do`. -/
structure Request where
  Method : String
  URL : String
  Header : List (String × String)
  Body : List Nat
deriving DecidableEq

/-- The parts of an `http.Response` that `WriteMetrics` reads. -/
structure Response where
  StatusCode : Int
  Body : String
deriving DecidableEq

/-- What the send loop does to the outside, in order: a call of `client.Do`, or
a `time.Sleep` of so many nanoseconds. -/
inductive Event where
  | request
  | sleep (ns : Int)
deriving DecidableEq

/-- Two's-complement wrap of an `int64` result. -/
def wrapInt64 (x : Int) : Int := (x + 2 ^ 63) % 2 ^ 64 - 2 ^ 63

/-- The nanoseconds in `time.Second`. -/
def Second : Int := 1000000000

/-- Line 141: `time.Duration(1<<uint(attempt)) * time.Second`. -/
def waitTime (attempt : Nat) : Int := wrapInt64 (wrapInt64 (2 ^ attempt) * Second)

/-- What the send loop returns (`err = none` is the nil error), the world it
leaves, and what it did. -/
structure SendOutcome (σ : Type) where
  err : Option String
  world : σ
  trace : List Event

/-- The send loop of `WriteMetrics` (lines 124-159).  `doReq` stands for
`w.client.Do`; `fuel` bounds the number of iterations, `attempt` and `maxRetries`
are the source's. -/
def sendLoop {σ : Type} (doReq : Request → σ → Except String Response × σ)
    (maxRetries : Nat) (req : Request) : Nat → Nat → σ → List Event → SendOutcome σ
  | 0, _, w, trace =>
    { err := some ("failed to send metrics after " ++ toString maxRetries ++ " retries"),
      world := w, trace := trace }
  | fuel + 1, attempt, w, trace =>
    if attempt < maxRetries then
      match doReq req w with
      | (.error err, w) =>
        { err := some ("failed to send request: " ++ err), world := w,
          trace := trace ++ [Event.request] }
      | (.ok resp, w) =>
        if resp.StatusCode < 200 ∨ resp.StatusCode ≥ 300 then
          let errMsg := resp.Body
          if resp.StatusCode = 429 ∧ attempt < maxRetries - 1 then
            sendLoop doReq maxRetries req fuel (attempt + 1) w
              (trace ++ [Event.request, Event.sleep (waitTime attempt)])
          else
            { err := some ("remote write failed with status " ++ toString resp.StatusCode ++
                ": " ++ errMsg),
              world := w, trace := trace ++ [Event.request] }
        else
          { err := none, world := w, trace := trace ++ [Event.request] }
    else
      { err := some ("failed to send metrics after " ++ toString maxRetries ++ " retries"),
        world := w, trace := trace }

/-- The libraries `WriteMetrics` calls: the clock, `WriteRequest.Marshal`,
`snappy.Encode`, `base64.StdEncoding.EncodeToString`, the check `http.NewRequest`
makes of its URL, and `client.Do`. -/
structure WriterEnv (σ : Type) where
  clock : Nat → Int
  marshal : List TimeSeries → Except String (List Nat)
  snappyEncode : List Nat → List Nat
  base64 : String → String
  checkURL : String → Except String Unit
  doReq : Request → σ → Except String Response × σ

/-- Lines 110-121 of `WriteMetrics`: the POST request carrying the compressed
payload. -/
def pushRequest {σ : Type} (env : WriterEnv σ) (config : Config) (compressed : List Nat) :
    Request :=
  let url := config.PrometheusURL ++ "/push"
  let auth := env.base64 (config.Username ++ ":" ++ config.Password)
  { Method := "POST", URL := url,
    Header := [("Authorization", "Basic " ++ auth),
               ("Content-Type", "application/x-protobuf"),
               ("Content-Encoding", "snappy"),
               ("X-Prometheus-Remote-Write-Version", "0.1.0")],
    Body := compressed }

/-- Method WriteMetrics sends the metrics to Grafana Cloud using Prometheus remote
write protocol.  The outer `.error` is a runtime panic; the `SendOutcome` carries
the returned error. -/
def WriteMetrics {σ : Type} (env : WriterEnv σ) (config : Config)
    (metrics : List (Option MetricFamily)) (w : σ) : Except String (SendOutcome σ) :=
  match buildTimeseries env.clock metrics with
  | .error e => .error e
  | .ok timeseries =>
    match env.marshal timeseries with
    | .error err =>
      .ok { err := some ("failed to marshal protobuf: " ++ err), world := w, trace := [] }
    | .ok data =>
      let compressed := env.snappyEncode data
      match env.checkURL (config.PrometheusURL ++ "/push") with
      | .error err =>
        .ok { err := some ("failed to create request: " ++ err), world := w, trace := [] }
      | .ok _ =>
        let req := pushRequest env config compressed
        let maxRetries := 3
        .ok (sendLoop env.doReq maxRetries req maxRetries 0 w [])

/-- A client that replays a fixed list of outcomes, one per call; once the list
is used up every call fails. -/
def scriptedClient : Request → List (Except String Response) →
    Except String Response × List (Except String Response)
  | _, [] => (.error "no response left", [])
  | _, o :: rest => (o, rest)


/-! ## Vocabulary of the statements -/

/-- The names of the metric families of a list, in order. -/
def familyNames (metrics : List (Option MetricFamily)) : List (Option String) :=
  metrics.map fun mf => mf.bind fun f => f.Name

/-- The types of the metric families of a list, in order. -/
def familyTypes (metrics : List (Option MetricFamily)) : List (Option MetricType) :=
  metrics.map fun mf => mf.bind fun f => f.MType

/-- The metrics of a family. -/
def familyMetrics (mf : Option MetricFamily) : List (Option Metric) :=
  match mf with
  | some f => f.Metric
  | none => []

/-- The gauge value of a metric, if it has one. -/
def gaugeValue (m : Option Metric) : Option ℚ :=
  m.bind fun x => x.Gauge.bind fun g => g.Value

/-- The capture timestamp stored in a metric, if any. -/
def metricTimestamp (m : Option Metric) : Option Int :=
  m.bind fun x => x.TimestampMs

/-- The label pairs of a metric, as (name, value). -/
def metricLabels (m : Option Metric) : List (Option String × Option String) :=
  match m with
  | some x => x.Label.map fun lp => (lp.bind fun l => l.Name, lp.bind fun l => l.Value)
  | none => []

/-- A metric has one of the kinds the conversion recognizes: gauge, counter or
untyped is set. -/
def recognized (m : Metric) : Bool :=
  m.Gauge.isSome || m.Counter.isSome || m.Untyped.isSome

/-- A label pair is there and has its name and value set. -/
def labelSet : Option LabelPair → Bool
  | some lp => lp.Name.isSome && lp.Value.isSome
  | none => false

/-- The value of a metric of a recognized kind is set: that of the gauge if
there is one, else of the counter if there is one, else of the untyped. -/
def valueSet (m : Metric) : Bool :=
  match m.Gauge, m.Counter, m.Untyped with
  | some g, _, _ => g.Value.isSome
  | none, some c, _ => c.Value.isSome
  | none, none, some u => u.Value.isSome
  | none, none, none => true

/-- A metric is there, with every label pair and its value set. -/
def metricSet : Option Metric → Bool
  | some m => m.Label.all labelSet && valueSet m
  | none => false

/-- A family is there, its metrics are set, and it has a name unless it has no
metric at all. -/
def familySet : Option MetricFamily → Bool
  | some mf => (mf.Metric.isEmpty || mf.Name.isSome) && mf.Metric.all metricSet
  | none => false

/-- Every pointer the conversion dereferences is set. -/
def pointersSet (metrics : List (Option MetricFamily)) : Bool :=
  metrics.all familySet

/-- The metrics of a recognized kind among those of one family named `name`. -/
def recognizedIn (name : String) (ms : List (Option Metric)) : List (String × Metric) :=
  ms.filterMap fun m =>
    match m with
    | none => none
    | some x => if recognized x then some (name, x) else none

/-- The metrics of a recognized kind in a list of families, each with the name
of its family, in input order. -/
def recognizedMetrics (metrics : List (Option MetricFamily)) : List (String × Metric) :=
  metrics.flatMap fun mf =>
    match mf with
    | none => []
    | some f => recognizedIn (f.Name.getD "") f.Metric

/-- The value the conversion reads from a metric: gauge first, then counter,
then untyped. -/
def kindValue (m : Metric) : ℚ :=
  match m.Gauge, m.Counter, m.Untyped with
  | some g, _, _ => g.Value.getD 0
  | none, some c, _ => c.Value.getD 0
  | none, none, some u => u.Value.getD 0
  | none, none, none => 0

/-- The one time series a metric of a recognized kind stands for: the reserved
`__name__` label with the family name, then the metric's labels in order, and
one sample. -/
def seriesOf (name : String) (m : Metric) (timestamp : Int) : TimeSeries :=
  { Labels := { Name := "__name__", Value := name } ::
      m.Label.map fun lp =>
        { Name := (lp.bind fun l => l.Name).getD "", Value := (lp.bind fun l => l.Value).getD "" }
    Samples := [{ Value := kindValue m, Timestamp := timestamp }] }

/-- The time series expected of a list of recognized metrics when the clock has
been read `k` times before: the `i`-th gets the reading `clock (k + i)`. -/
def seriesFrom (clock : Nat → Int) (k : Nat) (ms : List (String × Metric)) : List TimeSeries :=
  (ms.enumFrom k).map fun p => seriesOf p.2.1 p.2.2 (clock p.1)

/-- The number of metrics of a recognized kind in a list of families. -/
def recognizedCount (metrics : List (Option MetricFamily)) : Nat :=
  ((metrics.map familyMetrics).map fun ms =>
    ms.countP fun m =>
      match m with
      | some x => recognized x
      | none => false).sum

/-- A writer environment for concrete runs: a clock that counts up from `t0`, a
marshaller whose output is the number of series, no compression, the identity
for base64, any URL accepted, and the scripted client. -/
def scriptedEnv (t0 : Int) : WriterEnv (List (Except String Response)) :=
  { clock := fun k => t0 + k
    marshal := fun ts => .ok [ts.length]
    snappyEncode := fun data => data
    base64 := fun s => s
    checkURL := fun _ => .ok ()
    doReq := scriptedClient }

/-! ## Vocabulary of the statements on the send loop and on timestamps -/

/-- Starting in world `w`, the next `k` calls of the client each return a
response with status 429, and leave world `w'`. -/
def RateLimitedRun {σ : Type} (doReq : Request → σ → Except String Response × σ)
    (req : Request) : Nat → σ → σ → Prop
  | 0, w, w' => w = w'
  | k + 1, w, w' =>
    ∃ r w1, doReq req w = (.ok r, w1) ∧ r.StatusCode = 429 ∧ RateLimitedRun doReq req k w1 w'

/-- What the send loop has done after `k` rate-limited attempts that were each
retried: for attempt `i` a request followed by a sleep of `waitTime i`. -/
def backoffPrefix (k : Nat) : List Event :=
  (List.range k).flatMap fun i => [Event.request, Event.sleep (waitTime i)]

/-- A metric with its capture timestamp removed. -/
def clearTimestamp (m : Option Metric) : Option Metric :=
  m.map fun x => { x with TimestampMs := none }

/-- A list of metric families with the capture timestamp of every metric
removed: two lists differ only in their metrics' `TimestampMs` fields exactly
when this maps them to the same list. -/
def clearTimestamps (metrics : List (Option MetricFamily)) : List (Option MetricFamily) :=
  metrics.map fun mf => mf.map fun f => { f with Metric := f.Metric.map clearTimestamp }

/-- The sample timestamps of a list of time series, series by series. -/
def sampleTimestamps (ts : List TimeSeries) : List (List Int) :=
  ts.map fun t => t.Samples.map fun s => s.Timestamp

/-! ## config/config.go -/

/-- PrometheusConfig holds Grafana Cloud authentication and endpoint details. -/
structure PrometheusConfig where
  URL : String := ""
  Username : String := ""
  Password : String := ""
deriving DecidableEq

/-- Iperf3Config holds iperf3 test configuration. -/
structure Iperf3Config where
  Server : String := ""
  Port : Int := 0
  Duration : Int := 0
deriving DecidableEq

/-- MetricsConfig holds metric labels configuration. -/
structure MetricsConfig where
  Location : String := ""
  ISPName : String := ""
  PackageName : String := ""
deriving DecidableEq

/-- The type `config.Config`, the entire application configuration (named
`AppConfig` here, `Config` being taken by `remote.Config`). -/
structure AppConfig where
  Prometheus : PrometheusConfig := {}
  Iperf3 : Iperf3Config := {}
  Metrics : MetricsConfig := {}
deriving DecidableEq

/-- The libraries and the operating system as `config.go` uses them:
`os.UserHomeDir`, `filepath.Join`, `os.ReadFile`, `yaml.Unmarshal` into a
`Config`, and `os.Getenv`. -/
structure ConfigEnv where
  userHomeDir : Except String String
  joinPath : String → String → String
  readFile : String → Except String String
  unmarshalYaml : String → Except String AppConfig
  getenv : String → String

/-- Line 46, `configPath[0:2] == "~/"`.  Go slices a string by bytes and panics
when the upper bound exceeds its length in bytes; the two bytes of `~/` are
ASCII, so the first two bytes are `~/` exactly when the first two characters
are.  `.error` is the runtime panic. -/
def hasHomePrefix (configPath : String) : Except String Bool :=
  if 2 ≤ configPath.utf8ByteSize then
    .ok (decide (configPath.data.take 2 = ['~', '/']))
  else
    .error ("runtime error: slice bounds out of range [:2] with length " ++
      toString configPath.utf8ByteSize)

/-- Lines 41-52 of `LoadConfig`: the default for the empty path and the
expansion of the home directory.  The outer `.error` is a runtime panic, the
inner one the returned error. -/
def expandPath (env : ConfigEnv) (configPath : String) : Except String (Except String String) :=
  let configPath := if configPath = "" then "ibenc.yaml" else configPath
  match hasHomePrefix configPath with
  | .error p => .error p
  | .ok true =>
    match env.userHomeDir with
    | .error err => .ok (.error ("failed to get home directory: " ++ err))
    | .ok home => .ok (.ok (env.joinPath home (String.mk (configPath.data.drop 2))))
  | .ok false => .ok (.ok configPath)

/-- Validate checks that all required fields are set; `none` is the nil error. -/
def Validate (c : AppConfig) : Option String :=
  if c.Prometheus.URL = "" then some "prometheus.url is required"
  else if c.Prometheus.Username = "" then some "prometheus.username is required"
  else if c.Prometheus.Password = "" then some "prometheus.password is required"
  else if c.Iperf3.Server = "" then some "iperf3.server is required"
  else if c.Iperf3.Port ≤ 0 ∨ c.Iperf3.Port > 65535 then
    some "iperf3.port must be between 1 and 65535"
  else if c.Iperf3.Duration ≤ 0 then some "iperf3.duration must be greater than 0"
  else if c.Metrics.Location = "" then some "metrics.location is required"
  else none

/-- LoadConfig loads configuration from YAML file.  The outer `.error` is a
runtime panic, the inner one the returned error. -/
def LoadConfig (env : ConfigEnv) (configPath : String) : Except String (Except String AppConfig) :=
  match expandPath env configPath with
  | .error p => .error p
  | .ok (.error err) => .ok (.error err)
  | .ok (.ok configPath) =>
    match env.readFile configPath with
    | .error err => .ok (.error ("failed to read config file: " ++ err))
    | .ok data =>
      match env.unmarshalYaml data with
      | .error err => .ok (.error ("failed to parse YAML config: " ++ err))
      | .ok cfg =>
        match Validate cfg with
        | some err => .ok (.error err)
        | none => .ok (.ok cfg)

/-- Function applyEnvOverrides applies environment variable overrides to the
config. -/
def applyEnvOverrides (env : ConfigEnv) (cfg : AppConfig) : AppConfig :=
  let cfg := if env.getenv "IBENC_PROMETHEUS_URL" ≠ "" then
    { cfg with Prometheus := { cfg.Prometheus with URL := env.getenv "IBENC_PROMETHEUS_URL" } }
    else cfg
  let cfg := if env.getenv "IBENC_PROMETHEUS_USER" ≠ "" then
    { cfg with Prometheus := { cfg.Prometheus with Username := env.getenv "IBENC_PROMETHEUS_USER" } }
    else cfg
  let cfg := if env.getenv "IBENC_PROMETHEUS_PASS" ≠ "" then
    { cfg with Prometheus := { cfg.Prometheus with Password := env.getenv "IBENC_PROMETHEUS_PASS" } }
    else cfg
  let cfg := if env.getenv "IBENC_SERVER" ≠ "" then
    { cfg with Iperf3 := { cfg.Iperf3 with Server := env.getenv "IBENC_SERVER" } }
    else cfg
  let cfg := if env.getenv "IBENC_LOCATION" ≠ "" then
    { cfg with Metrics := { cfg.Metrics with Location := env.getenv "IBENC_LOCATION" } }
    else cfg
  let cfg := if env.getenv "IBENC_ISP_NAME" ≠ "" then
    { cfg with Metrics := { cfg.Metrics with ISPName := env.getenv "IBENC_ISP_NAME" } }
    else cfg
  let cfg := if env.getenv "IBENC_PACKAGE_NAME" ≠ "" then
    { cfg with Metrics := { cfg.Metrics with PackageName := env.getenv "IBENC_PACKAGE_NAME" } }
    else cfg
  cfg

/-- LoadConfigWithDefaults loads config and applies environment variable
overrides. -/
def LoadConfigWithDefaults (env : ConfigEnv) (configPath : String) :
    Except String (Except String AppConfig) :=
  match LoadConfig env configPath with
  | .error p => .error p
  | .ok (.error err) => .ok (.error err)
  | .ok (.ok cfg) => .ok (.ok (applyEnvOverrides env cfg))

/-- A configuration environment for concrete runs: home `/home/u`, paths joined
with a slash, no file readable, no variable set. -/
def bareConfigEnv : ConfigEnv :=
  { userHomeDir := .ok "/home/u"
    joinPath := fun a b => a ++ "/" ++ b
    readFile := fun _ => .error "no such file or directory"
    unmarshalYaml := fun _ => .error "empty document"
    getenv := fun _ => "" }

/-! ## main.go -/

/-- How a run of `main` ends: by returning, by `log.Fatalf` (exit status 1), or
by a runtime panic. -/
inductive Termination where
  | returned
  | fatal (msg : String)
  | panicked (msg : String)
deriving DecidableEq

/-- What a run of `main` does to the outside: how it ends, the argument of every
call of `WriteMetrics` it makes, the requests and sleeps of those calls, and the
`reverse` flags of the `RunTest` calls. -/
structure MainOutcome where
  termination : Termination
  written : List (List (Option MetricFamily))
  trace : List Event
  calls : List Bool

/-- Lines 32-73 of `main`: what is done with the measurement `testResult` once
`RunBothTests` has returned it without error.  `now` is the clock value read by
`ExportMetrics`, `net` the world of the HTTP client. -/
def report {τ : Type} (cfg : AppConfig) (now : Int) (env : WriterEnv τ) (net : τ)
    (testResult : TestResult) (calls : List Bool) : MainOutcome :=
  let metricLabels : MetricLabels :=
    { Location := cfg.Metrics.Location
      ISPName := cfg.Metrics.ISPName
      PackageName := cfg.Metrics.PackageName }
  let metricsData := ExportMetrics now testResult metricLabels
  if testResult.DownloadMbps = 0 ∧ testResult.UploadMbps = 0 then
    { termination := .returned, written := [], trace := [], calls := calls }
  else
    let writerConfig : Config :=
      { PrometheusURL := cfg.Prometheus.URL
        Username := cfg.Prometheus.Username
        Password := cfg.Prometheus.Password }
    match WriteMetrics env writerConfig metricsData net with
    | .error p =>
      { termination := .panicked p, written := [metricsData], trace := [], calls := calls }
    | .ok out =>
      match out.err with
      | some err =>
        { termination := .fatal ("Failed to send metrics: " ++ err),
          written := [metricsData], trace := out.trace, calls := calls }
      | none =>
        { termination := .returned, written := [metricsData], trace := out.trace,
          calls := calls }

/-- The function `main` of `main.go`.  `configPath` is the value of the `-config`
flag, `cenv` the environment of the configuration loader, `exec` and
`unmarshal` those of `RunTest` with `w` the world of the subprocess, `now` the
clock value read by `ExportMetrics`, `env` and `net` the environment and world
of the writer. -/
def main {σ τ : Type} (cenv : ConfigEnv) (configPath : String)
    (exec : List String → σ → CmdOutput × σ)
    (unmarshal : String → Except String Iperf3Output)
    (now : Int) (env : WriterEnv τ) (w : σ) (net : τ) : MainOutcome :=
  match LoadConfigWithDefaults cenv configPath with
  | .error p => { termination := .panicked p, written := [], trace := [], calls := [] }
  | .ok (.error err) =>
    { termination := .fatal ("Failed to load configuration: " ++ err),
      written := [], trace := [], calls := [] }
  | .ok (.ok cfg) =>
    let both := RunBothTests
      (RunTest exec unmarshal cfg.Iperf3.Server cfg.Iperf3.Port cfg.Iperf3.Duration) w
    match both.res with
    | .error err =>
      { termination := .fatal ("Test failed: " ++ err),
        written := [], trace := [], calls := both.calls }
    | .ok testResult => report cfg now env net testResult both.calls

/-- A configuration environment for concrete runs in which every file holds one
valid configuration. -/
def fileConfigEnv : ConfigEnv :=
  { userHomeDir := .ok "/home/u"
    joinPath := fun a b => a ++ "/" ++ b
    readFile := fun _ => .ok "yaml"
    unmarshalYaml := fun _ =>
      .ok { Prometheus := { URL := "https://prom.example/api/prom", Username := "user",
                            Password := "token" }
            Iperf3 := { Server := "iperf.example", Port := 5201, Duration := 10 }
            Metrics := { Location := "fra", ISPName := "acme", PackageName := "pro" } }
    getenv := fun _ => "" }

/-- A subprocess world that replays a fixed list of command outcomes, one per
run; once the list is used up every run fails. -/
def scriptedExec : List String → List CmdOutput → CmdOutput × List CmdOutput
  | _, [] => ({ output := "", err := some "exit status 1" }, [])
  | _, o :: rest => (o, rest)

/-- A decoder for concrete runs: the output `fast` is a report with one stream
and 85.5 Mbit/s in every summary, the output `idle` a report with one stream and
no throughput, anything else does not parse. -/
def sampleUnmarshal (output : String) : Except String Iperf3Output :=
  if output = "fast" then
    .ok { Streams := [{ Rtt := 45230, Rttvar := 2100 }], SumBitsPerSecond := 85500000,
          SumSentBitsPerSecond := 85500000, SumReceivedBitsPerSecond := 85500000 }
  else if output = "idle" then
    .ok { Streams := [{ Rtt := 45230, Rttvar := 2100 }] }
  else
    .error "invalid character"

/-! # Theorems -/

/-! ### The two loops, attempt by attempt -/

theorem downloadLoop_first_ok {σ : Type} (runTest : Bool → σ → Except String TestResult × σ)
    (st : BothState σ) (a : TestResult) (w1 : σ)
    (h : runTest true st.world = (.ok a, w1)) :
    downloadLoop runTest 2 2 0 st =
      { st with
          result := { st.result with
            DownloadMbps := a.DownloadMbps, LatencyMs := a.LatencyMs, JitterMs := a.JitterMs }
          err := none, world := w1, calls := st.calls ++ [true] } := by
  simp [downloadLoop, h]

theorem downloadLoop_second_ok {σ : Type} (runTest : Bool → σ → Except String TestResult × σ)
    (st : BothState σ) (e : String) (a : TestResult) (w1 w2 : σ)
    (h1 : runTest true st.world = (.error e, w1)) (h2 : runTest true w1 = (.ok a, w2)) :
    downloadLoop runTest 2 2 0 st =
      { st with
          result := { st.result with
            DownloadMbps := a.DownloadMbps, LatencyMs := a.LatencyMs, JitterMs := a.JitterMs }
          err := none, world := w2, calls := st.calls ++ [true, true] } := by
  simp [downloadLoop, h1, h2]

theorem downloadLoop_fail {σ : Type} (runTest : Bool → σ → Except String TestResult × σ)
    (st : BothState σ) (e1 e2 : String) (w1 w2 : σ)
    (h1 : runTest true st.world = (.error e1, w1)) (h2 : runTest true w1 = (.error e2, w2)) :
    downloadLoop runTest 2 2 0 st =
      { st with err := some e2, world := w2, calls := st.calls ++ [true, true] } := by
  simp [downloadLoop, h1, h2]

theorem uploadLoop_first_ok {σ : Type} (runTest : Bool → σ → Except String TestResult × σ)
    (st : BothState σ) (b : TestResult) (w1 : σ)
    (h : runTest false st.world = (.ok b, w1)) :
    uploadLoop runTest 2 2 0 st =
      { st with
          uploadResult := some b, err := none, world := w1, calls := st.calls ++ [false] } := by
  simp [uploadLoop, h]

theorem uploadLoop_second_ok {σ : Type} (runTest : Bool → σ → Except String TestResult × σ)
    (st : BothState σ) (e : String) (b : TestResult) (w1 w2 : σ)
    (h1 : runTest false st.world = (.error e, w1)) (h2 : runTest false w1 = (.ok b, w2)) :
    uploadLoop runTest 2 2 0 st =
      { st with
          uploadResult := some b, err := none, world := w2,
          calls := st.calls ++ [false, false] } := by
  simp [uploadLoop, h1, h2]

theorem uploadLoop_fail {σ : Type} (runTest : Bool → σ → Except String TestResult × σ)
    (st : BothState σ) (e1 e2 : String) (w1 w2 : σ)
    (h1 : runTest false st.world = (.error e1, w1)) (h2 : runTest false w1 = (.error e2, w2)) :
    uploadLoop runTest 2 2 0 st =
      { st with
          uploadResult := none, err := some e2, world := w2,
          calls := st.calls ++ [false, false] } := by
  simp [uploadLoop, h1, h2]

/-- Every direction either succeeds within its two attempts or fails on both. -/
theorem dir_cases {σ : Type} (runTest : Bool → σ → Except String TestResult × σ)
    (reverse : Bool) (w : σ) :
    (∃ r w1, DirSucceeds runTest reverse w r w1) ∨ (∃ w1, DirFails runTest reverse w w1) := by
  rcases h1 : runTest reverse w with ⟨_ | _, w1⟩
  · rename_i e1
    rcases h2 : runTest reverse w1 with ⟨_ | _, w2⟩
    · rename_i e2
      exact Or.inr ⟨w2, e1, w1, e2, h1, h2⟩
    · rename_i r
      exact Or.inl ⟨r, w2, Or.inr ⟨e1, w1, h1, h2⟩⟩
  · rename_i r
    exact Or.inl ⟨r, w1, Or.inl h1⟩

/-- A direction cannot both succeed and fail. -/
theorem dir_exclusive {σ : Type} (runTest : Bool → σ → Except String TestResult × σ)
    (reverse : Bool) (w : σ) (r : TestResult) (w1 w2 : σ)
    (hs : DirSucceeds runTest reverse w r w1) (hf : DirFails runTest reverse w w2) : False := by
  obtain ⟨e1, v1, e2, hf1, hf2⟩ := hf
  rcases hs with hs | ⟨e, v, hs1, hs2⟩
  · rw [hs] at hf1; simp at hf1
  · rw [hs1] at hf1
    simp only [Prod.mk.injEq, Except.error.injEq] at hf1
    obtain ⟨-, rfl⟩ := hf1
    rw [hs2] at hf2; simp at hf2

/-- State of `RunBothTests` after a successful download phase. -/
theorem download_phase_ok {σ : Type} (runTest : Bool → σ → Except String TestResult × σ)
    (w : σ) (a : TestResult) (w1 : σ) (h : DirSucceeds runTest true w a w1) :
    ∃ calls, (calls = [true] ∨ calls = [true, true]) ∧
      downloadLoop runTest 2 2 0
          { result := {}, err := none, uploadResult := none, world := w, calls := [] } =
        { result := { DownloadMbps := a.DownloadMbps, LatencyMs := a.LatencyMs,
                      JitterMs := a.JitterMs },
          err := none, uploadResult := none, world := w1, calls := calls } := by
  rcases h with h | ⟨e, v, h1, h2⟩
  · exact ⟨[true], Or.inl rfl, by rw [downloadLoop_first_ok runTest _ a w1 h]; rfl⟩
  · exact ⟨[true, true], Or.inr rfl, by rw [downloadLoop_second_ok runTest _ e a v w1 h1 h2]; rfl⟩

/-- State of `RunBothTests` after a download phase in which both attempts fail. -/
theorem download_phase_fail {σ : Type} (runTest : Bool → σ → Except String TestResult × σ)
    (w : σ) (w1 : σ) (h : DirFails runTest true w w1) :
    ∃ e, downloadLoop runTest 2 2 0
          { result := {}, err := none, uploadResult := none, world := w, calls := [] } =
        { result := {}, err := some e, uploadResult := none, world := w1,
          calls := [true, true] } := by
  obtain ⟨e1, v1, e2, h1, h2⟩ := h
  exact ⟨e2, by rw [downloadLoop_fail runTest _ e1 e2 v1 w1 h1 h2]; rfl⟩

/-- State of `RunBothTests` after a successful upload phase. -/
theorem upload_phase_ok {σ : Type} (runTest : Bool → σ → Except String TestResult × σ)
    (st : BothState σ) (b : TestResult) (w1 : σ) (h : DirSucceeds runTest false st.world b w1) :
    ∃ calls, (calls = [false] ∨ calls = [false, false]) ∧
      uploadLoop runTest 2 2 0 st =
        { st with uploadResult := some b, err := none, world := w1,
                  calls := st.calls ++ calls } := by
  rcases h with h | ⟨e, v, h1, h2⟩
  · exact ⟨[false], Or.inl rfl, uploadLoop_first_ok runTest st b w1 h⟩
  · exact ⟨[false, false], Or.inr rfl, uploadLoop_second_ok runTest st e b v w1 h1 h2⟩

/-- State of `RunBothTests` after an upload phase in which both attempts fail. -/
theorem upload_phase_fail {σ : Type} (runTest : Bool → σ → Except String TestResult × σ)
    (st : BothState σ) (w1 : σ) (h : DirFails runTest false st.world w1) :
    ∃ e, uploadLoop runTest 2 2 0 st =
        { st with uploadResult := none, err := some e, world := w1,
                  calls := st.calls ++ [false, false] } := by
  obtain ⟨e1, v1, e2, h1, h2⟩ := h
  exact ⟨e2, uploadLoop_fail runTest st e1 e2 v1 w1 h1 h2⟩

/-! ### `RunBothTests` in each of the four combinations of outcomes -/

theorem RunBothTests_ok_ok {σ : Type} (runTest : Bool → σ → Except String TestResult × σ)
    (w : σ) (a b : TestResult) (w1 w2 : σ)
    (hd : DirSucceeds runTest true w a w1) (hu : DirSucceeds runTest false w1 b w2) :
    (RunBothTests runTest w).res = combine (downloadPart a) none (some b) := by
  obtain ⟨cd, -, hdl⟩ := download_phase_ok runTest w a w1 hd
  obtain ⟨cu, -, hul⟩ := upload_phase_ok runTest
    { result := downloadPart a, err := none, uploadResult := none, world := w1, calls := cd }
    b w2 hu
  simp only [RunBothTests, hdl]
  simp only [downloadPart] at hul
  rw [hul]
  rfl

theorem RunBothTests_ok_fail {σ : Type} (runTest : Bool → σ → Except String TestResult × σ)
    (w : σ) (a : TestResult) (w1 w2 : σ)
    (hd : DirSucceeds runTest true w a w1) (hu : DirFails runTest false w1 w2) :
    (RunBothTests runTest w).res =
      if a.DownloadMbps = 0 then .error "both download and upload tests failed"
      else .ok (downloadPart a) := by
  obtain ⟨cd, -, hdl⟩ := download_phase_ok runTest w a w1 hd
  obtain ⟨e, hul⟩ := upload_phase_fail runTest
    { result := downloadPart a, err := none, uploadResult := none, world := w1, calls := cd }
    w2 hu
  simp only [RunBothTests, hdl]
  simp only [downloadPart] at hul
  rw [hul]
  rfl

theorem RunBothTests_fail_ok {σ : Type} (runTest : Bool → σ → Except String TestResult × σ)
    (w : σ) (b : TestResult) (w1 w2 : σ)
    (hd : DirFails runTest true w w1) (hu : DirSucceeds runTest false w1 b w2) :
    (RunBothTests runTest w).res = combine {} none (some b) := by
  obtain ⟨e, hdl⟩ := download_phase_fail runTest w w1 hd
  obtain ⟨cu, -, hul⟩ := upload_phase_ok runTest
    { result := {}, err := some e, uploadResult := none, world := w1, calls := [true, true] }
    b w2 hu
  simp only [RunBothTests, hdl]
  rw [hul]

theorem RunBothTests_fail_fail {σ : Type} (runTest : Bool → σ → Except String TestResult × σ)
    (w : σ) (w1 w2 : σ)
    (hd : DirFails runTest true w w1) (hu : DirFails runTest false w1 w2) :
    (RunBothTests runTest w).res = .error "both download and upload tests failed" := by
  obtain ⟨e, hdl⟩ := download_phase_fail runTest w w1 hd
  obtain ⟨e2, hul⟩ := upload_phase_fail runTest
    { result := {}, err := some e, uploadResult := none, world := w1, calls := [true, true] }
    w2 hu
  simp only [RunBothTests, hdl]
  rw [hul]
  rfl

theorem combine_ok (r b : TestResult) :
    combine r none (some b) =
      .ok { DownloadMbps := r.DownloadMbps, UploadMbps := b.UploadMbps,
            JitterMs := pick r.JitterMs b.JitterMs, LatencyMs := pick r.LatencyMs b.LatencyMs,
            PacketLossPercent := r.PacketLossPercent } := by
  unfold combine pick
  by_cases h1 : b.LatencyMs > 0 ∧ (r.LatencyMs = 0 ∨ b.LatencyMs < r.LatencyMs) <;>
  by_cases h2 : b.JitterMs > 0 ∧ (r.JitterMs = 0 ∨ b.JitterMs < r.JitterMs) <;>
  simp [h1, h2]

theorem pick_mergeLaw (a b : ℚ) (hb : 0 ≤ b) : MergeLaw a b (pick a b) := by
  unfold MergeLaw pick
  refine ⟨?_, ?_, ?_, ?_⟩
  · rintro ⟨ha, hb0⟩
    have hpos : 0 < b := lt_of_le_of_ne hb (Ne.symm hb0)
    by_cases hlt : b < a
    · rw [if_pos ⟨hpos, Or.inr hlt⟩, min_eq_right (le_of_lt hlt)]
    · rw [if_neg (by rintro ⟨-, h | h⟩; exact ha h; exact hlt h),
        min_eq_left (not_lt.mp hlt)]
  · rintro ⟨ha, hb0⟩
    have hpos : 0 < b := lt_of_le_of_ne hb (Ne.symm hb0)
    rw [if_pos ⟨hpos, Or.inl ha⟩]
  · rintro ⟨-, hb0⟩
    rw [if_neg (by rintro ⟨h, -⟩; rw [hb0] at h; exact lt_irrefl _ h)]
  · rintro ⟨ha, hb0⟩
    rw [if_neg (by rintro ⟨h, -⟩; rw [hb0] at h; exact lt_irrefl _ h), ha]

theorem pick_neg (a b : ℚ) (hb : b < 0) : pick a b = a := by
  unfold pick
  rw [if_neg (by rintro ⟨h, -⟩; exact lt_asymm h hb)]


/-! ### Claims on `RunBothTests` -/

/-- C1 (as amended): when both directions succeed, with download result `a` and
upload result `b`, `RunBothTests` returns a measurement whose `LatencyMs` obeys
the merge law (the smaller of the two when both are non-zero, the non-zero one
when exactly one is zero, zero when both are) provided `b.LatencyMs` is not
negative, and whose `JitterMs` obeys the same law provided `b.JitterMs` is not
negative; a negative upload value is never taken, the download value is kept. -/
theorem C1_merge_law_nonneg_upload {σ : Type}
    (runTest : Bool → σ → Except String TestResult × σ) (w : σ) (a b : TestResult) (w1 w2 : σ)
    (hd : DirSucceeds runTest true w a w1) (hu : DirSucceeds runTest false w1 b w2) :
    ∃ r, (RunBothTests runTest w).res = .ok r ∧
      (0 ≤ b.LatencyMs → MergeLaw a.LatencyMs b.LatencyMs r.LatencyMs) ∧
      (0 ≤ b.JitterMs → MergeLaw a.JitterMs b.JitterMs r.JitterMs) ∧
      (b.LatencyMs < 0 → r.LatencyMs = a.LatencyMs) ∧
      (b.JitterMs < 0 → r.JitterMs = a.JitterMs) := by
  rw [RunBothTests_ok_ok runTest w a b w1 w2 hd hu, combine_ok]
  exact ⟨_, rfl, pick_mergeLaw _ _, pick_mergeLaw _ _, pick_neg _ _, pick_neg _ _⟩

/-- C1 witness: download succeeds at once with latency 20 and jitter 3, upload
succeeds at once with latency 12 and jitter 5. -/
theorem C1_merge_law_nonneg_upload_witness :
    ∃ r, (RunBothTests scripted
        [.ok { DownloadMbps := 50, LatencyMs := 20, JitterMs := 3 },
         .ok { UploadMbps := 10, LatencyMs := 12, JitterMs := 5 }]).res = .ok r ∧
      (0 ≤ (12 : ℚ) → MergeLaw 20 12 r.LatencyMs) ∧
      (0 ≤ (5 : ℚ) → MergeLaw 3 5 r.JitterMs) ∧
      ((12 : ℚ) < 0 → r.LatencyMs = 20) ∧
      ((5 : ℚ) < 0 → r.JitterMs = 3) :=
  C1_merge_law_nonneg_upload scripted
    [.ok { DownloadMbps := 50, LatencyMs := 20, JitterMs := 3 },
     .ok { UploadMbps := 10, LatencyMs := 12, JitterMs := 5 }]
    { DownloadMbps := 50, LatencyMs := 20, JitterMs := 3 }
    { UploadMbps := 10, LatencyMs := 12, JitterMs := 5 }
    [.ok { UploadMbps := 10, LatencyMs := 12, JitterMs := 5 }] []
    (Or.inl rfl) (Or.inl rfl)

/-- C1 counterexample: download succeeds with latency 2, upload succeeds with
latency -1 (an `rtt` of -1000 in the report); both are non-zero, the combined
latency is 2, and the merge law asks for the minimum, -1. -/
theorem C1_merge_law_counterexample :
    DirSucceeds scripted true
        [.ok { DownloadMbps := 5, LatencyMs := 2 }, .ok { UploadMbps := 3, LatencyMs := -1 }]
        { DownloadMbps := 5, LatencyMs := 2 } [.ok { UploadMbps := 3, LatencyMs := -1 }] ∧
      DirSucceeds scripted false [.ok { UploadMbps := 3, LatencyMs := -1 }]
        { UploadMbps := 3, LatencyMs := -1 } [] ∧
      (RunBothTests scripted
        [.ok { DownloadMbps := 5, LatencyMs := 2 }, .ok { UploadMbps := 3, LatencyMs := -1 }]).res
        = .ok { DownloadMbps := 5, UploadMbps := 3, LatencyMs := 2 } ∧
      ¬ MergeLaw 2 (-1) 2 := by
  refine ⟨Or.inl rfl, Or.inl rfl, rfl, ?_⟩
  intro h
  have h1 := h.1 ⟨by norm_num, by norm_num⟩
  rw [min_eq_right (by norm_num)] at h1
  norm_num at h1

/-- C2: `RunBothTests` returns an error exactly when both upload attempts fail
and the download throughput recorded by then is zero (the download attempts both
failed, or the successful one reported zero); when both upload attempts fail and
the download run reported a non-zero throughput, it returns that run's
`DownloadMbps`, `LatencyMs` and `JitterMs` with `UploadMbps = 0`. -/
theorem C2_partial_failure_policy {σ : Type}
    (runTest : Bool → σ → Except String TestResult × σ) (w : σ) :
    ((∃ e, (RunBothTests runTest w).res = .error e) ↔
      ∃ w1 w2, DirFails runTest false w1 w2 ∧
        (DirFails runTest true w w1 ∨
          ∃ a, DirSucceeds runTest true w a w1 ∧ a.DownloadMbps = 0)) ∧
    (∀ a w1 w2, DirSucceeds runTest true w a w1 → DirFails runTest false w1 w2 →
      a.DownloadMbps ≠ 0 →
      (RunBothTests runTest w).res =
        .ok { DownloadMbps := a.DownloadMbps, UploadMbps := 0, JitterMs := a.JitterMs,
              LatencyMs := a.LatencyMs, PacketLossPercent := 0 }) := by
  refine ⟨⟨?_, ?_⟩, ?_⟩
  · rintro ⟨e, he⟩
    rcases dir_cases runTest true w with ⟨a, w1, hd⟩ | ⟨w1, hd⟩
    · rcases dir_cases runTest false w1 with ⟨b, w2, hu⟩ | ⟨w2, hu⟩
      · rw [RunBothTests_ok_ok runTest w a b w1 w2 hd hu, combine_ok] at he
        cases he
      · rw [RunBothTests_ok_fail runTest w a w1 w2 hd hu] at he
        by_cases h0 : a.DownloadMbps = 0
        · exact ⟨w1, w2, hu, Or.inr ⟨a, hd, h0⟩⟩
        · rw [if_neg h0] at he
          cases he
    · rcases dir_cases runTest false w1 with ⟨b, w2, hu⟩ | ⟨w2, hu⟩
      · rw [RunBothTests_fail_ok runTest w b w1 w2 hd hu, combine_ok] at he
        cases he
      · exact ⟨w1, w2, hu, Or.inl hd⟩
  · rintro ⟨w1, w2, hu, hd | ⟨a, hd, h0⟩⟩
    · exact ⟨_, RunBothTests_fail_fail runTest w w1 w2 hd hu⟩
    · exact ⟨_, by rw [RunBothTests_ok_fail runTest w a w1 w2 hd hu, if_pos h0]⟩
  · intro a w1 w2 hd hu h0
    rw [RunBothTests_ok_fail runTest w a w1 w2 hd hu, if_neg h0]
    rfl

/-- The four call patterns of the partial-failure policy on concrete probes:
upload fails twice after a download of 40 Mbps (degraded success), after a
download reporting 0 Mbps (error), and after two failed downloads (error). -/
theorem partial_failure_examples :
    (RunBothTests scripted
        [.ok { DownloadMbps := 40, LatencyMs := 7, JitterMs := 1 }, .error "x", .error "y"]).res
        = .ok { DownloadMbps := 40, LatencyMs := 7, JitterMs := 1 } ∧
      (RunBothTests scripted
        [.ok { DownloadMbps := 0, LatencyMs := 7, JitterMs := 1 }, .error "x", .error "y"]).res
        = .error "both download and upload tests failed" ∧
      (RunBothTests scripted [.error "a", .error "b", .error "x", .error "y"]).res
        = .error "both download and upload tests failed" :=
  ⟨rfl, rfl, rfl⟩

/-- C3: `RunBothTests` calls the probe once for a direction whose first attempt
succeeds and twice otherwise, the reverse calls first; a direction that fails
once and then succeeds contributes its result after exactly two calls; a probe
that always fails is called twice in reverse, then twice forward, four times in
all, and `RunBothTests` returns an error. -/
theorem C3_retry_ceiling {σ : Type}
    (runTest : Bool → σ → Except String TestResult × σ) (w : σ) :
    (RunBothTests runTest w).calls =
        List.replicate (if (runTest true w).1.isOk then 1 else 2) true ++
        List.replicate
          (if (runTest false
                (if (runTest true w).1.isOk then (runTest true w).2
                 else (runTest true (runTest true w).2).2)).1.isOk
           then 1 else 2) false ∧
    (∀ e a w1 w2 b w3, runTest true w = (.error e, w1) → runTest true w1 = (.ok a, w2) →
      DirSucceeds runTest false w2 b w3 →
      (RunBothTests runTest w).calls.count true = 2 ∧
      ∃ r, (RunBothTests runTest w).res = .ok r ∧ r.DownloadMbps = a.DownloadMbps) ∧
    (∀ w1 e b w2 w3, (DirFails runTest true w w1 ∨ ∃ a, DirSucceeds runTest true w a w1) →
      runTest false w1 = (.error e, w2) → runTest false w2 = (.ok b, w3) →
      (RunBothTests runTest w).calls.count false = 2 ∧
      ∃ r, (RunBothTests runTest w).res = .ok r ∧ r.UploadMbps = b.UploadMbps) ∧
    ((∀ reverse v, (runTest reverse v).1.isOk = false) →
      (RunBothTests runTest w).calls = [true, true, false, false] ∧
      (RunBothTests runTest w).calls.length = 4 ∧
      ∃ e, (RunBothTests runTest w).res = .error e) := by
  have hcalls : (RunBothTests runTest w).calls =
        List.replicate (if (runTest true w).1.isOk then 1 else 2) true ++
        List.replicate
          (if (runTest false
                (if (runTest true w).1.isOk then (runTest true w).2
                 else (runTest true (runTest true w).2).2)).1.isOk
           then 1 else 2) false := by
    rcases h1 : runTest true w with ⟨_ | _, w1⟩
    · rcases h2 : runTest true w1 with ⟨_ | _, w2⟩ <;>
      rcases h3 : runTest false w2 with ⟨_ | _, w3⟩ <;>
      try rcases h4 : runTest false w3 with ⟨_ | _, w4⟩
      all_goals
        simp [RunBothTests, downloadLoop, uploadLoop, h1, h2, h3, Except.isOk, Except.toBool,
          List.replicate]
      all_goals simp [*]
    · rcases h3 : runTest false w1 with ⟨_ | _, w3⟩ <;>
      try rcases h4 : runTest false w3 with ⟨_ | _, w4⟩
      all_goals
        simp [RunBothTests, downloadLoop, uploadLoop, h1, h3, Except.isOk, Except.toBool,
          List.replicate]
      all_goals simp [*]
  refine ⟨hcalls, ?_, ?_, ?_⟩
  · intro e a w1 w2 b w3 h1 h2 hu
    refine ⟨?_, ?_⟩
    · rw [hcalls, h1]
      simp [Except.isOk, Except.toBool, List.count_replicate]
    · rw [RunBothTests_ok_ok runTest w a b w2 w3 (Or.inr ⟨e, w1, h1, h2⟩) hu, combine_ok]
      exact ⟨_, rfl, rfl⟩
  · intro w1 e b w2 w3 hd h1 h2
    have hu : DirSucceeds runTest false w1 b w3 := Or.inr ⟨e, w2, h1, h2⟩
    rcases hd with hd | ⟨a, hd⟩
    · refine ⟨?_, ?_⟩
      · obtain ⟨e1, v1, e2, hd1, hd2⟩ := hd
        rw [hcalls, hd1]
        simp [Except.isOk, Except.toBool, List.count_replicate, hd2, h1]
      · rw [RunBothTests_fail_ok runTest w b w1 w3 hd hu, combine_ok]
        exact ⟨_, rfl, rfl⟩
    · refine ⟨?_, ?_⟩
      · rcases hd with hd | ⟨e1, v1, hd1, hd2⟩
        · rw [hcalls, hd]
          simp [Except.isOk, Except.toBool, List.count_replicate, h1]
        · rw [hcalls, hd1]
          simp [Except.isOk, Except.toBool, List.count_replicate, hd2, h1]
      · rw [RunBothTests_ok_ok runTest w a b w1 w3 hd hu, combine_ok]
        exact ⟨_, rfl, rfl⟩
  · intro hall
    have hc : (RunBothTests runTest w).calls = [true, true, false, false] := by
      rw [hcalls, hall, hall]
      rfl
    refine ⟨hc, by rw [hc]; rfl, ?_⟩
    have hfail : ∀ reverse v, ∃ e v1, runTest reverse v = (.error e, v1) := by
      intro reverse v
      have := hall reverse v
      rcases h : runTest reverse v with ⟨_ | _, v1⟩
      · exact ⟨_, _, rfl⟩
      · rw [h] at this
        simp [Except.isOk, Except.toBool] at this
    obtain ⟨e1, v1, h1⟩ := hfail true w
    obtain ⟨e2, v2, h2⟩ := hfail true v1
    obtain ⟨e3, v3, h3⟩ := hfail false v2
    obtain ⟨e4, v4, h4⟩ := hfail false v3
    exact ⟨_, RunBothTests_fail_fail runTest w v2 v4 ⟨e1, v1, e2, h1, h2⟩ ⟨e3, v3, e4, h3, h4⟩⟩

/-- The retry ceiling on concrete probes: a probe that fails once and then
succeeds in each direction is called twice per direction and the run succeeds; a
probe that never succeeds is called four times and the run fails. -/
theorem retry_ceiling_examples :
    (RunBothTests scripted
        [.error "a", .ok { DownloadMbps := 40 }, .error "b", .ok { UploadMbps := 9 }]).calls
        = [true, true, false, false] ∧
      (RunBothTests scripted
        [.error "a", .ok { DownloadMbps := 40 }, .error "b", .ok { UploadMbps := 9 }]).res
        = .ok { DownloadMbps := 40, UploadMbps := 9 } ∧
      (RunBothTests scripted
        [.ok { DownloadMbps := 40 }, .ok { UploadMbps := 9 }]).calls = [true, false] ∧
      (RunBothTests scripted ([] : List (Except String TestResult))).calls
        = [true, true, false, false] ∧
      (RunBothTests scripted ([] : List (Except String TestResult))).res
        = .error "both download and upload tests failed" :=
  ⟨rfl, rfl, rfl, rfl, rfl⟩

/-- C4: when both download attempts fail and the upload direction succeeds with
result `u`, `RunBothTests` returns success with `DownloadMbps = 0` and
`UploadMbps = u.UploadMbps`. -/
theorem C4_partial_success {σ : Type}
    (runTest : Bool → σ → Except String TestResult × σ) (w : σ) (u : TestResult) (w1 w2 : σ)
    (hd : DirFails runTest true w w1) (hu : DirSucceeds runTest false w1 u w2) :
    ∃ r, (RunBothTests runTest w).res = .ok r ∧
      r.DownloadMbps = 0 ∧ r.UploadMbps = u.UploadMbps := by
  rw [RunBothTests_fail_ok runTest w u w1 w2 hd hu, combine_ok]
  exact ⟨_, rfl, rfl, rfl⟩

/-- C4 witness: the download attempts both fail and the upload succeeds with
10.0 Mbps; the run returns download 0, upload 10. -/
theorem C4_partial_success_witness :
    (RunBothTests scripted
        [.error "refused", .error "refused", .ok { UploadMbps := 10 }]).res
        = .ok { DownloadMbps := 0, UploadMbps := 10 } ∧
    ∃ r, (RunBothTests scripted
        [.error "refused", .error "refused", .ok { UploadMbps := 10 }]).res = .ok r ∧
      r.DownloadMbps = 0 ∧ r.UploadMbps = (10 : ℚ) :=
  ⟨rfl, C4_partial_success scripted
    [.error "refused", .error "refused", .ok { UploadMbps := 10 }]
    { UploadMbps := 10 } [.ok { UploadMbps := 10 }] []
    ⟨"refused", [.error "refused", .ok { UploadMbps := 10 }], "refused", rfl, rfl⟩
    (Or.inl rfl)⟩

/-! ### The float64 division on concrete values -/

theorem divFloat64_zero (b : ℚ) : divFloat64 0 b = 0 := by
  simp [divFloat64, roundFloat64]

theorem divFloat64_5000000 : divFloat64 5000000 1000000 = 5 := by
  decide!

theorem divFloat64_85500000 : divFloat64 85500000 1000000 = 171 / 2 := by
  decide!

/-- The division rounds where the quotient is not a float64 (42.3 becomes the
float64 next to it), rounds a tie to the even neighbour, and underflows to 0 on
the smallest positive float64, `2 ^ -1074`. -/
theorem divFloat64_examples :
    divFloat64 42300000 1000000 = 2976597878715187 / 70368744177664 ∧
      divFloat64 1 3 = 6004799503160661 / 18014398509481984 ∧
      roundFloat64 (9007199254740993 : ℚ) = 9007199254740992 ∧
      roundFloat64 (9007199254740995 : ℚ) = 9007199254740996 ∧
      roundFloat64 (mkRat 3 (2 ^ 1075)) = mkRat 2 (2 ^ 1074) ∧
      (0 : ℚ) < mkRat 1 (2 ^ 1074) ∧
      divFloat64 (mkRat 1 (2 ^ 1074)) 1000000 = 0 := by
  decide!

/-! ### Claims on `RunTest` -/

/-- When the command succeeds and its output decodes to `rep`, `RunTest` returns
the measurement read off `rep`. -/
theorem RunTest_decoded {σ : Type} (exec : List String → σ → CmdOutput × σ)
    (unmarshal : String → Except String Iperf3Output)
    (server : String) (port duration : Int) (reverse : Bool) (w : σ) (rep : Iperf3Output)
    (hexec : (exec ("iperf3" :: iperf3Args server port duration reverse) w).1.err = none)
    (hdec : unmarshal (exec ("iperf3" :: iperf3Args server port duration reverse) w).1.output
      = .ok rep) :
    (RunTest exec unmarshal server port duration reverse w).1 = .ok (parseReport rep reverse) := by
  unfold RunTest
  rcases hx : exec ("iperf3" :: iperf3Args server port duration reverse) w with ⟨out, w1⟩
  rw [hx] at hexec hdec
  simp only at hexec hdec
  simp only [hexec, hdec]

theorem parseReport_no_streams (rep : Iperf3Output) (reverse : Bool) (h : rep.Streams = []) :
    parseReport rep reverse = {} := by
  simp [parseReport, h]

theorem parseReport_streams (rep : Iperf3Output) (reverse : Bool)
    (pre : List EndStream) (last : EndStream) (h : rep.Streams = pre ++ [last]) :
    parseReport rep reverse =
      { DownloadMbps :=
          if reverse = true then
            divFloat64 (if rep.SumReceivedBitsPerSecond > 0 then rep.SumReceivedBitsPerSecond
             else rep.SumBitsPerSecond) 1000000
          else 0
        UploadMbps :=
          if reverse = true then 0
          else
            divFloat64 (if rep.SumSentBitsPerSecond > 0 then rep.SumSentBitsPerSecond
             else rep.SumBitsPerSecond) 1000000
        JitterMs := (last.Rttvar : ℚ) / 1000
        LatencyMs := (last.Rtt : ℚ) / 1000
        PacketLossPercent := 0 } := by
  have hlen : 0 < rep.Streams.length := by rw [h]; simp
  have hlast : rep.Streams.get ⟨rep.Streams.length - 1, Nat.sub_lt hlen Nat.one_pos⟩ = last := by
    have hl : rep.Streams.length - 1 = pre.length := by rw [h]; simp
    simp only [List.get_eq_getElem, hl]
    simp [h]
  unfold parseReport
  simp only [dif_pos hlen, hlast]
  cases reverse <;> simp

/-- C5 (as amended): for every successfully decoded report with at least one
end-of-test stream record, a reverse run yields as `DownloadMbps` the float64
quotient of sum_received.bits_per_second by 1,000,000 when that field is
positive and that of sum.bits_per_second when it is zero, and a forward run
yields `UploadMbps` likewise from sum_sent; for a report with no stream records
both throughputs are 0. -/
theorem C5_throughput_selection_with_streams {σ : Type}
    (exec : List String → σ → CmdOutput × σ)
    (unmarshal : String → Except String Iperf3Output)
    (server : String) (port duration : Int) (reverse : Bool) (w : σ) (rep : Iperf3Output)
    (hexec : (exec ("iperf3" :: iperf3Args server port duration reverse) w).1.err = none)
    (hdec : unmarshal (exec ("iperf3" :: iperf3Args server port duration reverse) w).1.output
      = .ok rep) :
    ∃ r, (RunTest exec unmarshal server port duration reverse w).1 = .ok r ∧
      (rep.Streams ≠ [] →
        (reverse = true →
          (rep.SumReceivedBitsPerSecond > 0 →
            r.DownloadMbps = divFloat64 rep.SumReceivedBitsPerSecond 1000000) ∧
          (rep.SumReceivedBitsPerSecond = 0 →
            r.DownloadMbps = divFloat64 rep.SumBitsPerSecond 1000000)) ∧
        (reverse = false →
          (rep.SumSentBitsPerSecond > 0 →
            r.UploadMbps = divFloat64 rep.SumSentBitsPerSecond 1000000) ∧
          (rep.SumSentBitsPerSecond = 0 →
            r.UploadMbps = divFloat64 rep.SumBitsPerSecond 1000000))) ∧
      (rep.Streams = [] → r.DownloadMbps = 0 ∧ r.UploadMbps = 0) := by
  refine ⟨_, RunTest_decoded exec unmarshal server port duration reverse w rep hexec hdec, ?_, ?_⟩
  · intro hne
    obtain ⟨pre, last, hpl⟩ : ∃ pre last, rep.Streams = pre ++ [last] :=
      ⟨rep.Streams.dropLast, rep.Streams.getLast hne, (List.dropLast_append_getLast hne).symm⟩
    rw [parseReport_streams rep reverse pre last hpl]
    refine ⟨?_, ?_⟩
    · intro hr
      subst hr
      refine ⟨fun hpos => ?_, fun hz => ?_⟩
      · simp [hpos]
      · simp [hz]
    · intro hr
      subst hr
      refine ⟨fun hpos => ?_, fun hz => ?_⟩
      · simp [hpos]
      · simp [hz]
  · intro hnil
    rw [parseReport_no_streams rep reverse hnil]
    exact ⟨rfl, rfl⟩

/-- C5 witness: a reverse run whose report has one stream, 85.5 Mbit/s received
and 80 Mbit/s in the generic summary. -/
theorem C5_throughput_selection_with_streams_witness :
    ∃ r, (RunTest (fun _ (w : Unit) => (({ output := "report", err := none } : CmdOutput), w))
          (fun _ => .ok { Streams := [{ Rtt := 45230, Rttvar := 2100 }],
                          SumBitsPerSecond := 80000000,
                          SumReceivedBitsPerSecond := 85500000 })
          "host" 5201 10 true ()).1 = .ok r ∧
      (([{ Rtt := 45230, Rttvar := 2100 }] : List EndStream) ≠ [] →
        (true = true →
          ((85500000 : ℚ) > 0 → r.DownloadMbps = divFloat64 85500000 1000000) ∧
          ((85500000 : ℚ) = 0 → r.DownloadMbps = divFloat64 80000000 1000000)) ∧
        (true = false →
          ((0 : ℚ) > 0 → r.UploadMbps = divFloat64 0 1000000) ∧
          ((0 : ℚ) = 0 → r.UploadMbps = divFloat64 80000000 1000000))) ∧
      (([{ Rtt := 45230, Rttvar := 2100 }] : List EndStream) = [] →
        r.DownloadMbps = 0 ∧ r.UploadMbps = 0) :=
  C5_throughput_selection_with_streams
    (fun _ (w : Unit) => (({ output := "report", err := none } : CmdOutput), w))
    (fun _ => .ok { Streams := [{ Rtt := 45230, Rttvar := 2100 }],
                    SumBitsPerSecond := 80000000,
                    SumReceivedBitsPerSecond := 85500000 })
    "host" 5201 10 true ()
    { Streams := [{ Rtt := 45230, Rttvar := 2100 }],
      SumBitsPerSecond := 80000000,
      SumReceivedBitsPerSecond := 85500000 }
    rfl rfl

/-- C5 counterexample: a reverse run whose report decodes with
sum_received.bits_per_second = 5,000,000 (> 0) and no stream records yields
`DownloadMbps = 0`, not 5. -/
theorem C5_throughput_selection_counterexample :
    (RunTest (fun _ (w : Unit) => (({ output := "report", err := none } : CmdOutput), w))
        (fun _ => .ok { Streams := [], SumBitsPerSecond := 5000000,
                        SumReceivedBitsPerSecond := 5000000 })
        "host" 5201 10 true ()).1 = .ok { DownloadMbps := 0 } ∧
      (5000000 : ℚ) > 0 ∧ (0 : ℚ) ≠ divFloat64 5000000 1000000 := by
  refine ⟨rfl, by norm_num, ?_⟩
  rw [divFloat64_5000000]
  norm_num

theorem RunTest_underflow (x : ℚ) (hpos : 0 < x) (hdiv : divFloat64 x 1000000 = 0) :
    (RunTest (fun _ (w : Unit) => (({ output := "report", err := none } : CmdOutput), w))
        (fun _ => .ok { Streams := [{ Rtt := 45230, Rttvar := 2100 }],
                        SumReceivedBitsPerSecond := x })
        "host" 5201 10 true ()).1
      = .ok { DownloadMbps := 0, LatencyMs := 4523 / 100, JitterMs := 21 / 10 } := by
  have hrep := parseReport_streams
    { Streams := [{ Rtt := 45230, Rttvar := 2100 }], SumReceivedBitsPerSecond := x }
    true [] { Rtt := 45230, Rttvar := 2100 } rfl
  simp only [if_true, if_pos hpos, hdiv] at hrep
  simp only [RunTest, hrep]
  norm_num

/-- The underflow of the throughput division on a concrete report: a reverse run
with one stream record and sum_received.bits_per_second = `2 ^ -1074`, the
smallest positive float64, yields `DownloadMbps = 0`. -/
theorem throughput_underflow_example :
    (RunTest (fun _ (w : Unit) => (({ output := "report", err := none } : CmdOutput), w))
        (fun _ => .ok { Streams := [{ Rtt := 45230, Rttvar := 2100 }],
                        SumReceivedBitsPerSecond := mkRat 1 (2 ^ 1074) })
        "host" 5201 10 true ()).1
      = .ok { DownloadMbps := 0, LatencyMs := 4523 / 100, JitterMs := 21 / 10 } :=
  RunTest_underflow (mkRat 1 (2 ^ 1074)) divFloat64_examples.2.2.2.2.2.1
    divFloat64_examples.2.2.2.2.2.2

/-- C6: for every decoded report with at least one end-of-test stream record,
`LatencyMs` is the last record's rtt / 1000 and `JitterMs` its rttvar / 1000;
for a report with no stream records both are 0. -/
theorem C6_latency_jitter_from_last_stream {σ : Type}
    (exec : List String → σ → CmdOutput × σ)
    (unmarshal : String → Except String Iperf3Output)
    (server : String) (port duration : Int) (reverse : Bool) (w : σ) (rep : Iperf3Output)
    (hexec : (exec ("iperf3" :: iperf3Args server port duration reverse) w).1.err = none)
    (hdec : unmarshal (exec ("iperf3" :: iperf3Args server port duration reverse) w).1.output
      = .ok rep) :
    ∃ r, (RunTest exec unmarshal server port duration reverse w).1 = .ok r ∧
      (∀ pre last, rep.Streams = pre ++ [last] →
        r.LatencyMs = (last.Rtt : ℚ) / 1000 ∧ r.JitterMs = (last.Rttvar : ℚ) / 1000) ∧
      (rep.Streams = [] → r.LatencyMs = 0 ∧ r.JitterMs = 0) := by
  refine ⟨_, RunTest_decoded exec unmarshal server port duration reverse w rep hexec hdec, ?_, ?_⟩
  · intro pre last hpl
    rw [parseReport_streams rep reverse pre last hpl]
    exact ⟨rfl, rfl⟩
  · intro hnil
    rw [parseReport_no_streams rep reverse hnil]
    exact ⟨rfl, rfl⟩

/-- C6 witness: a forward run whose report has three stream records; latency and
jitter are those of the third, 45.23 ms and 2.1 ms. -/
theorem C6_latency_jitter_from_last_stream_witness :
    (RunTest (fun _ (w : Unit) => (({ output := "report", err := none } : CmdOutput), w))
        (fun _ => .ok { Streams := [{ Rtt := 100, Rttvar := 7 }, { Rtt := 9000, Rttvar := 50 },
                                    { Rtt := 45230, Rttvar := 2100 }],
                        SumSentBitsPerSecond := 42300000 })
        "host" 5201 10 false ()).1
      = .ok { UploadMbps := divFloat64 42300000 1000000, LatencyMs := 4523 / 100,
              JitterMs := 21 / 10 } ∧
    ∃ r, (RunTest (fun _ (w : Unit) => (({ output := "report", err := none } : CmdOutput), w))
        (fun _ => .ok { Streams := [{ Rtt := 100, Rttvar := 7 }, { Rtt := 9000, Rttvar := 50 },
                                    { Rtt := 45230, Rttvar := 2100 }],
                        SumSentBitsPerSecond := 42300000 })
        "host" 5201 10 false ()).1 = .ok r ∧
      (∀ pre last,
        ([{ Rtt := 100, Rttvar := 7 }, { Rtt := 9000, Rttvar := 50 },
          { Rtt := 45230, Rttvar := 2100 }] : List EndStream) = pre ++ [last] →
        r.LatencyMs = (last.Rtt : ℚ) / 1000 ∧ r.JitterMs = (last.Rttvar : ℚ) / 1000) ∧
      (([{ Rtt := 100, Rttvar := 7 }, { Rtt := 9000, Rttvar := 50 },
          { Rtt := 45230, Rttvar := 2100 }] : List EndStream) = [] →
        r.LatencyMs = 0 ∧ r.JitterMs = 0) :=
  ⟨by norm_num [RunTest, parseReport],
   C6_latency_jitter_from_last_stream
    (fun _ (w : Unit) => (({ output := "report", err := none } : CmdOutput), w))
    (fun _ => .ok { Streams := [{ Rtt := 100, Rttvar := 7 }, { Rtt := 9000, Rttvar := 50 },
                                { Rtt := 45230, Rttvar := 2100 }],
                    SumSentBitsPerSecond := 42300000 })
    "host" 5201 10 false ()
    { Streams := [{ Rtt := 100, Rttvar := 7 }, { Rtt := 9000, Rttvar := 50 },
                  { Rtt := 45230, Rttvar := 2100 }],
      SumSentBitsPerSecond := 42300000 }
    rfl rfl⟩

/-! ### Claims on `ExportMetrics` and on the conversion in `WriteMetrics` -/

/-- C7 (as amended): `ExportMetrics` returns exactly five gauge metric families
named, in order, `ibenc_download_speed_mbps`, `ibenc_upload_speed_mbps`,
`ibenc_jitter_ms`, `ibenc_latency_ms`, `ibenc_packet_loss_percent`, each with one
metric whose gauge values are respectively DownloadMbps, UploadMbps, JitterMs,
LatencyMs, PacketLossPercent, all carrying the same timestamp and the same three
labels. -/
theorem C7_metric_projection_prefixed_names (now : Int) (result : TestResult)
    (labels : MetricLabels) :
    (ExportMetrics now result labels).length = 5 ∧
    familyNames (ExportMetrics now result labels) =
      [some "ibenc_download_speed_mbps", some "ibenc_upload_speed_mbps",
       some "ibenc_jitter_ms", some "ibenc_latency_ms", some "ibenc_packet_loss_percent"] ∧
    familyTypes (ExportMetrics now result labels) =
      List.replicate 5 (some MetricType.GAUGE) ∧
    (ExportMetrics now result labels).map (fun mf => (familyMetrics mf).map gaugeValue) =
      [[some result.DownloadMbps], [some result.UploadMbps], [some result.JitterMs],
       [some result.LatencyMs], [some result.PacketLossPercent]] ∧
    (ExportMetrics now result labels).map (fun mf => (familyMetrics mf).map metricTimestamp) =
      List.replicate 5 [some now] ∧
    (ExportMetrics now result labels).map (fun mf => (familyMetrics mf).map metricLabels) =
      List.replicate 5
        [[(some "location", some labels.Location), (some "isp_name", some labels.ISPName),
          (some "package_name", some labels.PackageName)]] := by
  refine ⟨rfl, rfl, rfl, rfl, rfl, rfl⟩

/-- C7 counterexample: the families built for the zero measurement are not named
`download_speed_mbps`, ..., `packet_loss_percent`; the first name is
`ibenc_download_speed_mbps`. -/
theorem C7_metric_names_counterexample :
    familyNames (ExportMetrics 0 {} ⟨"fra", "acme", "pro"⟩) ≠
        [some "download_speed_mbps", some "upload_speed_mbps", some "jitter_ms",
         some "latency_ms", some "packet_loss_percent"] ∧
      (familyNames (ExportMetrics 0 {} ⟨"fra", "acme", "pro"⟩)).head? =
        some (some "ibenc_download_speed_mbps") := by
  refine ⟨?_, rfl⟩
  simp [familyNames, ExportMetrics, createGaugeMetric]

/-- C8: the time series built from the output of `ExportMetrics` are exactly
five, in input order, each with the four labels `__name__` (the metric name),
location, isp_name, package_name in that order and with one sample, the sample
values being download, upload, jitter, latency, loss. -/
theorem C8_projection_then_wire (now : Int) (clock : Nat → Int) (result : TestResult)
    (labels : MetricLabels) :
    ∃ ts, buildTimeseries clock (ExportMetrics now result labels) = .ok ts ∧
      ts.length = 5 ∧
      ts.map (fun t => t.Labels.length) = [4, 4, 4, 4, 4] ∧
      ts.map (fun t => t.Labels.map fun l => l.Name) =
        List.replicate 5 ["__name__", "location", "isp_name", "package_name"] ∧
      ts.map (fun t => (t.Labels.map fun l => some l.Value).head?) =
        (familyNames (ExportMetrics now result labels)).map some ∧
      ts.map (fun t => (t.Labels.map fun l => l.Value).tail) =
        List.replicate 5 [labels.Location, labels.ISPName, labels.PackageName] ∧
      ts.map (fun t => t.Samples.length) = [1, 1, 1, 1, 1] ∧
      ts.map (fun t => t.Samples.map fun s => s.Value) =
        [[result.DownloadMbps], [result.UploadMbps], [result.JitterMs],
         [result.LatencyMs], [result.PacketLossPercent]] := by
  refine ⟨_, rfl, rfl, rfl, rfl, rfl, rfl, rfl, rfl⟩

/-- The wire conversion on the measurement 85.5 / 42.3 Mbps, 45.23 ms latency,
2.1 ms jitter, no loss, labelled fra / acme / pro: the sample values are
85.5, 42.3, 2.1, 45.23, 0. -/
theorem wire_conversion_example :
    (buildTimeseries (fun _ => 1700000000000)
        (ExportMetrics 1700000000000
          { DownloadMbps := 171 / 2, UploadMbps := 423 / 10, JitterMs := 21 / 10,
            LatencyMs := 4523 / 100, PacketLossPercent := 0 }
          ⟨"fra", "acme", "pro"⟩)).map
        (fun ts => ts.map fun t => (t.Labels.length, t.Samples.map fun s => s.Value)) =
      .ok [(4, [171 / 2]), (4, [423 / 10]), (4, [21 / 10]), (4, [4523 / 100]), (4, [0])] := by
  rfl

/-! ### The conversion loop on families whose pointers are set -/

theorem appendLabels_ok (ls : List (Option LabelPair)) (labels : List Label)
    (h : ls.all labelSet = true) :
    appendLabels ls labels =
      .ok (labels ++ ls.map fun lp =>
        { Name := (lp.bind fun l => l.Name).getD "", Value := (lp.bind fun l => l.Value).getD "" }) := by
  induction ls generalizing labels with
  | nil => simp [appendLabels]
  | cons lp rest ih =>
    simp only [List.all_cons, Bool.and_eq_true] at h
    obtain ⟨hlp, hrest⟩ := h
    cases lp with
    | none => simp [labelSet] at hlp
    | some l =>
      obtain ⟨n, v⟩ := l
      cases n with
      | none => simp [labelSet] at hlp
      | some n =>
        cases v with
        | none => simp [labelSet] at hlp
        | some v =>
          simp only [appendLabels]
          rw [ih _ hrest]
          simp

theorem metricValue_ok (m : Metric) (h : valueSet m = true) :
    metricValue m = .ok (if recognized m then some (kindValue m) else none) := by
  obtain ⟨lbl, g, c, s, u, hi, t⟩ := m
  cases g with
  | some g =>
    obtain ⟨gv⟩ := g
    cases gv with
    | none => simp [valueSet] at h
    | some v => simp [metricValue, recognized, kindValue]
  | none =>
    cases c with
    | some c =>
      obtain ⟨cv⟩ := c
      cases cv with
      | none => simp [valueSet] at h
      | some v => simp [metricValue, recognized, kindValue]
    | none =>
      cases u with
      | some u =>
        obtain ⟨uv⟩ := u
        cases uv with
        | none => simp [valueSet] at h
        | some v => simp [metricValue, recognized, kindValue]
      | none => simp [metricValue, recognized]

theorem metricLoop_ok (clock : Nat → Int) (name : String) (ms : List (Option Metric))
    (timeseries : List TimeSeries) (k : Nat) (h : ms.all metricSet = true) :
    metricLoop clock (some name) ms (timeseries, k) =
      .ok (timeseries ++ seriesFrom clock k (recognizedIn name ms),
           k + (recognizedIn name ms).length) := by
  induction ms generalizing timeseries k with
  | nil => simp [metricLoop, recognizedIn, seriesFrom]
  | cons m rest ih =>
    simp only [List.all_cons, Bool.and_eq_true] at h
    obtain ⟨hm, hrest⟩ := h
    cases m with
    | none => simp [metricSet] at hm
    | some m =>
      simp only [metricSet, Bool.and_eq_true] at hm
      obtain ⟨hl, hv⟩ := hm
      simp only [metricLoop, appendLabels_ok m.Label _ hl, metricValue_ok m hv]
      by_cases hr : recognized m = true
      · simp only [hr, if_true]
        rw [ih _ _ hrest]
        simp [recognizedIn, seriesFrom, hr, seriesOf, List.enumFrom_cons, Nat.add_assoc,
          Nat.add_comm 1]
      · simp only [hr]
        rw [ih _ _ hrest]
        simp [recognizedIn, seriesFrom, hr]

theorem metricLoop_family_ok (clock : Nat → Int) (f : MetricFamily)
    (timeseries : List TimeSeries) (k : Nat) (h : familySet (some f) = true) :
    metricLoop clock f.Name f.Metric (timeseries, k) =
      .ok (timeseries ++ seriesFrom clock k (recognizedIn (f.Name.getD "") f.Metric),
           k + (recognizedIn (f.Name.getD "") f.Metric).length) := by
  simp only [familySet, Bool.and_eq_true, Bool.or_eq_true] at h
  obtain ⟨hname, hms⟩ := h
  cases hn : f.Name with
  | some n => simpa using metricLoop_ok clock n f.Metric timeseries k hms
  | none =>
    rw [hn] at hname
    have hempty : f.Metric = [] := by
      rcases hname with h1 | h1
      · simpa using h1
      · simp at h1
    rw [hempty]
    simp [metricLoop, recognizedIn, seriesFrom]

theorem familyLoop_ok (clock : Nat → Int) (metrics : List (Option MetricFamily))
    (timeseries : List TimeSeries) (k : Nat) (h : pointersSet metrics = true) :
    familyLoop clock metrics (timeseries, k) =
      .ok (timeseries ++ seriesFrom clock k (recognizedMetrics metrics),
           k + (recognizedMetrics metrics).length) := by
  induction metrics generalizing timeseries k with
  | nil => simp [familyLoop, recognizedMetrics, seriesFrom]
  | cons mf rest ih =>
    simp only [pointersSet, List.all_cons, Bool.and_eq_true] at h
    obtain ⟨hmf, hrest⟩ := h
    cases mf with
    | none => simp [familySet] at hmf
    | some f =>
      simp only [familyLoop, metricLoop_family_ok clock f timeseries k hmf]
      rw [ih _ _ (by simpa [pointersSet] using hrest)]
      simp [recognizedMetrics, seriesFrom, List.enumFrom_append, Nat.add_assoc]

theorem appendLabels_err (ls : List (Option LabelPair)) (labels : List Label)
    (h : ls.all labelSet = false) : appendLabels ls labels = .error nilDeref := by
  induction ls generalizing labels with
  | nil => simp at h
  | cons lp rest ih =>
    cases lp with
    | none => simp [appendLabels]
    | some l =>
      obtain ⟨n, v⟩ := l
      cases n with
      | none => simp [appendLabels]
      | some n =>
        cases v with
        | none => simp [appendLabels]
        | some v =>
          simp only [appendLabels]
          apply ih
          simpa [labelSet] using h

theorem metricValue_err (m : Metric) (h : valueSet m = false) :
    metricValue m = .error nilDeref := by
  obtain ⟨lbl, g, c, s, u, hi, t⟩ := m
  cases g with
  | some g =>
    obtain ⟨gv⟩ := g
    cases gv with
    | none => simp [metricValue]
    | some v => simp [valueSet] at h
  | none =>
    cases c with
    | some c =>
      obtain ⟨cv⟩ := c
      cases cv with
      | none => simp [metricValue]
      | some v => simp [valueSet] at h
    | none =>
      cases u with
      | some u =>
        obtain ⟨uv⟩ := u
        cases uv with
        | none => simp [metricValue]
        | some v => simp [valueSet] at h
      | none => simp [valueSet] at h

theorem metricLoop_err (clock : Nat → Int) (name : String) (ms : List (Option Metric))
    (st : List TimeSeries × Nat) (h : ms.all metricSet = false) :
    metricLoop clock (some name) ms st = .error nilDeref := by
  induction ms generalizing st with
  | nil => simp at h
  | cons m rest ih =>
    obtain ⟨timeseries, k⟩ := st
    cases m with
    | none => simp [metricLoop]
    | some m =>
      by_cases hl : m.Label.all labelSet = true
      · by_cases hv : valueSet m = true
        · have hrest : rest.all metricSet = false := by
            simpa [metricSet, hl, hv] using h
          simp only [metricLoop, appendLabels_ok m.Label _ hl, metricValue_ok m hv]
          by_cases hr : recognized m = true
          · simp only [hr, if_true]
            exact ih _ hrest
          · simp only [hr]
            exact ih _ hrest
        · simp only [metricLoop, appendLabels_ok m.Label _ hl,
            metricValue_err m (by simpa using hv)]
      · simp only [metricLoop, appendLabels_err m.Label _ (by simpa using hl)]

theorem metricLoop_unnamed (clock : Nat → Int) (m : Option Metric) (rest : List (Option Metric))
    (st : List TimeSeries × Nat) :
    metricLoop clock none (m :: rest) st = .error nilDeref := by
  obtain ⟨timeseries, k⟩ := st
  simp [metricLoop]

theorem familyLoop_err (clock : Nat → Int) (metrics : List (Option MetricFamily))
    (st : List TimeSeries × Nat) (h : pointersSet metrics = false) :
    familyLoop clock metrics st = .error nilDeref := by
  induction metrics generalizing st with
  | nil => simp [pointersSet] at h
  | cons mf rest ih =>
    cases mf with
    | none => simp [familyLoop]
    | some f =>
      by_cases hf : familySet (some f) = true
      · have hrest : pointersSet rest = false := by
          simpa [pointersSet, hf] using h
        obtain ⟨timeseries, k⟩ := st
        simp only [familyLoop, metricLoop_family_ok clock f timeseries k hf]
        exact ih _ hrest
      · simp only [familySet, Bool.and_eq_true, Bool.or_eq_true, not_and] at hf
        cases hn : f.Name with
        | none =>
          cases hm : f.Metric with
          | nil => simp [hn, hm] at hf
          | cons m ms => simp [familyLoop, hn, hm, metricLoop_unnamed]
        | some n =>
          have hms : f.Metric.all metricSet = false := by
            have := hf (Or.inr (by simp [hn]))
            simpa using this
          simp [familyLoop, hn, metricLoop_err clock n f.Metric st hms]

/-- The conversion panics exactly when one of the pointers it dereferences is
nil. -/
theorem buildTimeseries_panics_iff (clock : Nat → Int) (metrics : List (Option MetricFamily)) :
    buildTimeseries clock metrics = .error nilDeref ↔ pointersSet metrics = false := by
  constructor
  · intro h
    by_contra hne
    have hset : pointersSet metrics = true := by simpa using hne
    simp [buildTimeseries, familyLoop_ok clock metrics [] 0 hset] at h
  · intro h
    simp [buildTimeseries, familyLoop_err clock metrics ([], 0) h]

theorem recognizedIn_length (name : String) (ms : List (Option Metric)) :
    (recognizedIn name ms).length =
      ms.countP fun m =>
        match m with
        | some x => recognized x
        | none => false := by
  induction ms with
  | nil => rfl
  | cons m rest ih =>
    cases m with
    | none => simpa [recognizedIn] using ih
    | some x =>
      by_cases hr : recognized x = true
      · simpa [recognizedIn, hr] using ih
      · simpa [recognizedIn, hr] using ih

theorem recognizedMetrics_length (metrics : List (Option MetricFamily)) :
    (recognizedMetrics metrics).length = recognizedCount metrics := by
  induction metrics with
  | nil => rfl
  | cons mf rest ih =>
    cases mf with
    | none =>
      simpa [recognizedMetrics, recognizedCount, familyMetrics] using ih
    | some f =>
      simp only [recognizedMetrics, recognizedCount, familyMetrics, List.flatMap_cons,
        List.length_append, List.map_cons, List.sum_cons, recognizedIn_length] at ih ⊢
      rw [ih]

theorem seriesFrom_length (clock : Nat → Int) (k : Nat) (ms : List (String × Metric)) :
    (seriesFrom clock k ms).length = ms.length := by
  simp [seriesFrom]

/-- C9 (as amended): for every list of metric families in which the pointers the
conversion dereferences are set (no nil family, metric or label pair; a name on
every family that has a metric; a name and a value on every label; a value in
the gauge, counter or untyped that is read), the conversion succeeds, a metric
with none of gauge, counter or untyped set contributes no time series, every
other metric contributes exactly one, in input order, and the number of time
series is the number of metrics of a recognized kind. -/
theorem C9_skip_unrecognized_kinds (clock : Nat → Int) (metrics : List (Option MetricFamily))
    (h : pointersSet metrics = true) :
    ∃ ts, buildTimeseries clock metrics = .ok ts ∧
      ts = seriesFrom clock 0 (recognizedMetrics metrics) ∧
      ts.length = recognizedCount metrics := by
  refine ⟨seriesFrom clock 0 (recognizedMetrics metrics), ?_, rfl, ?_⟩
  · simp [buildTimeseries, familyLoop_ok clock metrics [] 0 h]
  · rw [seriesFrom_length, recognizedMetrics_length]

/-- C9 witness: a gauge family, a family holding a summary metric and a counter
metric, and an untyped family; the summary metric is skipped and three series
come out, in input order. -/
theorem C9_skip_unrecognized_kinds_witness :
    ∃ ts, buildTimeseries (fun k => 100 + k)
        [some { Name := some "g", Metric := [some { Gauge := some { Value := some 1 } }] },
         some { Name := some "f", Metric := [some { Summary := some () },
                                             some { Counter := some { Value := some 2 } }] },
         some { Name := some "u", Metric := [some { Untyped := some { Value := some 3 } }] }]
        = .ok ts ∧
      ts = seriesFrom (fun k => 100 + k) 0 (recognizedMetrics
        [some { Name := some "g", Metric := [some { Gauge := some { Value := some 1 } }] },
         some { Name := some "f", Metric := [some { Summary := some () },
                                             some { Counter := some { Value := some 2 } }] },
         some { Name := some "u", Metric := [some { Untyped := some { Value := some 3 } }] }]) ∧
      ts.length = recognizedCount
        [some { Name := some "g", Metric := [some { Gauge := some { Value := some 1 } }] },
         some { Name := some "f", Metric := [some { Summary := some () },
                                             some { Counter := some { Value := some 2 } }] },
         some { Name := some "u", Metric := [some { Untyped := some { Value := some 3 } }] }] :=
  C9_skip_unrecognized_kinds (fun k => 100 + k)
    [some { Name := some "g", Metric := [some { Gauge := some { Value := some 1 } }] },
     some { Name := some "f", Metric := [some { Summary := some () },
                                         some { Counter := some { Value := some 2 } }] },
     some { Name := some "u", Metric := [some { Untyped := some { Value := some 3 } }] }]
    rfl

/-- The skipping of a summary metric on a concrete list: three series with the
names g, f, u, the values 1, 2, 3 and the clock readings 100, 101, 102. -/
theorem skip_unrecognized_example :
    buildTimeseries (fun k => 100 + k)
        [some { Name := some "g", Metric := [some { Gauge := some { Value := some 1 } }] },
         some { Name := some "f", Metric := [some { Summary := some () },
                                             some { Counter := some { Value := some 2 } }] },
         some { Name := some "u", Metric := [some { Untyped := some { Value := some 3 } }] }]
      = .ok [{ Labels := [⟨"__name__", "g"⟩], Samples := [⟨1, 100⟩] },
             { Labels := [⟨"__name__", "f"⟩], Samples := [⟨2, 101⟩] },
             { Labels := [⟨"__name__", "u"⟩], Samples := [⟨3, 102⟩] }] := by
  rfl

/-- C9 counterexample: a family whose `Name` is nil and whose only metric is a
summary (none of gauge, counter, untyped set): converting it dereferences the nil
name before the kind is looked at, and the conversion panics instead of skipping
the metric. -/
theorem C9_skip_unrecognized_counterexample :
    recognized { Summary := some () } = false ∧
      buildTimeseries (fun _ => 0)
        [some { Name := none, Metric := [some { Summary := some () }] }] = .error nilDeref := by
  exact ⟨rfl, rfl⟩

/-! ### Claims on the send loop of `WriteMetrics` -/

theorem waitTime_zero : waitTime 0 = 1 * Second := by
  simp [waitTime, wrapInt64, Second]

theorem waitTime_one : waitTime 1 = 2 * Second := by
  simp [waitTime, wrapInt64, Second]

/-- Up to the point where it sends, `WriteMetrics` is the send loop run on the
request built from the converted, marshalled and compressed time series. -/
theorem WriteMetrics_sends {σ : Type} (env : WriterEnv σ) (config : Config)
    (metrics : List (Option MetricFamily)) (w : σ) (ts : List TimeSeries) (data : List Nat)
    (hts : buildTimeseries env.clock metrics = .ok ts)
    (hm : env.marshal ts = .ok data)
    (hu : env.checkURL (config.PrometheusURL ++ "/push") = .ok ()) :
    WriteMetrics env config metrics w =
      .ok (sendLoop env.doReq 3 (pushRequest env config (env.snappyEncode data)) 3 0 w []) := by
  simp only [WriteMetrics, hts, hm, hu]

/-- The send loop on the responses 429, 429 and then a 2xx status. -/
theorem sendLoop_429_429_ok {σ : Type} (doReq : Request → σ → Except String Response × σ)
    (req : Request) (w w1 w2 w3 : σ) (r1 r2 r3 : Response)
    (h1 : doReq req w = (.ok r1, w1)) (hs1 : r1.StatusCode = 429)
    (h2 : doReq req w1 = (.ok r2, w2)) (hs2 : r2.StatusCode = 429)
    (h3 : doReq req w2 = (.ok r3, w3)) (hs3 : 200 ≤ r3.StatusCode ∧ r3.StatusCode < 300) :
    sendLoop doReq 3 req 3 0 w [] =
      { err := none, world := w3,
        trace := [Event.request, Event.sleep (1 * Second), Event.request,
                  Event.sleep (2 * Second), Event.request] } := by
  have hok : ¬ (r3.StatusCode < 200 ∨ r3.StatusCode ≥ 300) := by omega
  simp [sendLoop, h1, hs1, h2, hs2, h3, hok, waitTime_zero, waitTime_one]

/-- C10: when the responses are HTTP 429, 429 and then a 2xx status,
`WriteMetrics` calls the client exactly three times, sleeps 1 second before the
second call and 2 seconds before the third (2^k seconds after attempt k = 0, 1),
and returns no error. -/
theorem C10_rate_limit_backoff {σ : Type} (env : WriterEnv σ) (config : Config)
    (metrics : List (Option MetricFamily)) (w w1 w2 w3 : σ)
    (ts : List TimeSeries) (data : List Nat) (r1 r2 r3 : Response)
    (hts : buildTimeseries env.clock metrics = .ok ts)
    (hm : env.marshal ts = .ok data)
    (hu : env.checkURL (config.PrometheusURL ++ "/push") = .ok ())
    (h1 : env.doReq (pushRequest env config (env.snappyEncode data)) w = (.ok r1, w1))
    (hs1 : r1.StatusCode = 429)
    (h2 : env.doReq (pushRequest env config (env.snappyEncode data)) w1 = (.ok r2, w2))
    (hs2 : r2.StatusCode = 429)
    (h3 : env.doReq (pushRequest env config (env.snappyEncode data)) w2 = (.ok r3, w3))
    (hs3 : 200 ≤ r3.StatusCode ∧ r3.StatusCode < 300) :
    ∃ out, WriteMetrics env config metrics w = .ok out ∧
      out.err = none ∧
      out.world = w3 ∧
      out.trace = [Event.request, Event.sleep (1 * Second), Event.request,
                   Event.sleep (2 * Second), Event.request] ∧
      out.trace.count Event.request = 3 ∧
      waitTime 0 = 2 ^ 0 * Second ∧ waitTime 1 = 2 ^ 1 * Second := by
  refine ⟨_, WriteMetrics_sends env config metrics w ts data hts hm hu, ?_⟩
  rw [sendLoop_429_429_ok env.doReq _ w w1 w2 w3 r1 r2 r3 h1 hs1 h2 hs2 h3 hs3]
  refine ⟨rfl, rfl, rfl, by simp [List.count_cons], ?_, ?_⟩
  · rw [waitTime_zero]; norm_num
  · rw [waitTime_one]; norm_num

/-- C10 witness: the five families of a 85.5 / 42.3 Mbps measurement sent to a
backend that answers 429, 429, 200. -/
theorem C10_rate_limit_backoff_witness :
    ∃ out, WriteMetrics (scriptedEnv 1000) ⟨"https://prom.example/api/prom", "user", "token"⟩
        (ExportMetrics 1000 { DownloadMbps := 171 / 2, UploadMbps := 423 / 10 }
          ⟨"fra", "acme", "pro"⟩)
        [.ok ⟨429, "rate limited"⟩, .ok ⟨429, "rate limited"⟩, .ok ⟨200, ""⟩] = .ok out ∧
      out.err = none ∧
      out.world = [] ∧
      out.trace = [Event.request, Event.sleep (1 * Second), Event.request,
                   Event.sleep (2 * Second), Event.request] ∧
      out.trace.count Event.request = 3 ∧
      waitTime 0 = 2 ^ 0 * Second ∧ waitTime 1 = 2 ^ 1 * Second :=
  C10_rate_limit_backoff (scriptedEnv 1000) ⟨"https://prom.example/api/prom", "user", "token"⟩
    (ExportMetrics 1000 { DownloadMbps := 171 / 2, UploadMbps := 423 / 10 }
      ⟨"fra", "acme", "pro"⟩)
    [.ok ⟨429, "rate limited"⟩, .ok ⟨429, "rate limited"⟩, .ok ⟨200, ""⟩]
    [.ok ⟨429, "rate limited"⟩, .ok ⟨200, ""⟩] [.ok ⟨200, ""⟩] []
    (seriesFrom (fun k => 1000 + k) 0 (recognizedMetrics
      (ExportMetrics 1000 { DownloadMbps := 171 / 2, UploadMbps := 423 / 10 }
        ⟨"fra", "acme", "pro"⟩)))
    [5] ⟨429, "rate limited"⟩ ⟨429, "rate limited"⟩ ⟨200, ""⟩
    rfl rfl rfl rfl rfl rfl rfl rfl ⟨by decide, by decide⟩

/-! ### The send loop when the rate limit persists, and outside rate limiting -/

/-- The send loop on three responses with status 429: the third attempt is not
retried and ends in the error of a failed status. -/
theorem sendLoop_429_429_429 {σ : Type} (doReq : Request → σ → Except String Response × σ)
    (req : Request) (w w1 w2 w3 : σ) (r1 r2 r3 : Response)
    (h1 : doReq req w = (.ok r1, w1)) (hs1 : r1.StatusCode = 429)
    (h2 : doReq req w1 = (.ok r2, w2)) (hs2 : r2.StatusCode = 429)
    (h3 : doReq req w2 = (.ok r3, w3)) (hs3 : r3.StatusCode = 429) :
    sendLoop doReq 3 req 3 0 w [] =
      { err := some ("remote write failed with status " ++ toString r3.StatusCode ++ ": " ++
          r3.Body),
        world := w3,
        trace := [Event.request, Event.sleep (1 * Second), Event.request,
                  Event.sleep (2 * Second), Event.request] } := by
  simp [sendLoop, h1, hs1, h2, hs2, h3, hs3, waitTime_zero, waitTime_one]

/-- Whatever the client answers, the send loop of `WriteMetrics` ends with no
error, with the error of a failed request, or with the error of a failed status:
the return after the loop (line 159) is never reached. -/
theorem sendLoop_error_forms {σ : Type} (doReq : Request → σ → Except String Response × σ)
    (req : Request) (w : σ) :
    (sendLoop doReq 3 req 3 0 w []).err = none ∨
    (∃ e, (sendLoop doReq 3 req 3 0 w []).err = some ("failed to send request: " ++ e)) ∨
    (∃ r : Response, (sendLoop doReq 3 req 3 0 w []).err =
      some ("remote write failed with status " ++ toString r.StatusCode ++ ": " ++ r.Body)) := by
  generalize hout : sendLoop doReq 3 req 3 0 w [] = out
  simp only [sendLoop] at hout
  repeat' split at hout
  all_goals
    subst hout
    first
    | exact Or.inl rfl
    | exact Or.inr (Or.inl ⟨_, rfl⟩)
    | exact Or.inr (Or.inr ⟨_, rfl⟩)
    | omega

/-- C11 (the code at the failing input): a backend that answers 429 three times
is called three times with sleeps of 1 and 2 seconds (none of 4 seconds), and
`WriteMetrics` returns the error of a failed status, the one a 500 gets, not the
retries-exhausted error of line 159. -/
theorem C11_persistent_429_outcome :
    (∃ out, WriteMetrics (scriptedEnv 1000) ⟨"https://prom.example/api/prom", "user", "token"⟩
        (ExportMetrics 1000 { DownloadMbps := 171 / 2, UploadMbps := 423 / 10 }
          ⟨"fra", "acme", "pro"⟩)
        [.ok ⟨429, "rate limited"⟩, .ok ⟨429, "rate limited"⟩, .ok ⟨429, "rate limited"⟩]
          = .ok out ∧
      out.trace = [Event.request, Event.sleep (1 * Second), Event.request,
                   Event.sleep (2 * Second), Event.request] ∧
      out.trace.count Event.request = 3 ∧
      out.trace.count (Event.sleep (4 * Second)) = 0 ∧
      out.err = some "remote write failed with status 429: rate limited" ∧
      out.err ≠ some "failed to send metrics after 3 retries") ∧
    (∃ out, WriteMetrics (scriptedEnv 1000) ⟨"https://prom.example/api/prom", "user", "token"⟩
        (ExportMetrics 1000 { DownloadMbps := 171 / 2, UploadMbps := 423 / 10 }
          ⟨"fra", "acme", "pro"⟩)
        [.ok ⟨500, "rate limited"⟩] = .ok out ∧
      out.err = some "remote write failed with status 500: rate limited") := by
  refine ⟨⟨_, rfl, rfl, ?_, ?_, ?_, ?_⟩, ⟨_, rfl, ?_⟩⟩
  · decide
  · decide
  · rfl
  · decide
  · rfl

theorem backoffPrefix_zero : backoffPrefix 0 = [] := rfl

theorem backoffPrefix_one :
    backoffPrefix 1 = [Event.request, Event.sleep (waitTime 0)] := rfl

theorem backoffPrefix_two :
    backoffPrefix 2 =
      [Event.request, Event.sleep (waitTime 0), Event.request, Event.sleep (waitTime 1)] := rfl

/-- The send loop after `k < 3` rate-limited attempts: whatever the next attempt
returns other than a 429, the loop ends with that attempt. -/
theorem sendLoop_after_rate_limit {σ : Type}
    (doReq : Request → σ → Except String Response × σ) (req : Request)
    (k : Nat) (w w1 : σ) (hk : k < 3) (hpre : RateLimitedRun doReq req k w w1) :
    (∀ e w2, doReq req w1 = (.error e, w2) →
      sendLoop doReq 3 req 3 0 w [] =
        { err := some ("failed to send request: " ++ e), world := w2,
          trace := backoffPrefix k ++ [Event.request] }) ∧
    (∀ r w2, doReq req w1 = (.ok r, w2) →
      (r.StatusCode < 200 ∨ r.StatusCode ≥ 300) → r.StatusCode ≠ 429 →
      sendLoop doReq 3 req 3 0 w [] =
        { err := some ("remote write failed with status " ++ toString r.StatusCode ++ ": " ++
            r.Body),
          world := w2, trace := backoffPrefix k ++ [Event.request] }) ∧
    (∀ r w2, doReq req w1 = (.ok r, w2) → 200 ≤ r.StatusCode → r.StatusCode < 300 →
      sendLoop doReq 3 req 3 0 w [] =
        { err := none, world := w2, trace := backoffPrefix k ++ [Event.request] }) := by
  interval_cases k
  · simp only [RateLimitedRun] at hpre
    subst hpre
    refine ⟨?_, ?_, ?_⟩
    · intro e w2 h
      simp [sendLoop, h, backoffPrefix_zero]
    · intro r w2 h hs hne
      simp [sendLoop, h, hs, hne, backoffPrefix_zero]
    · intro r w2 h hlo hhi
      have hok : ¬ (r.StatusCode < 200 ∨ r.StatusCode ≥ 300) := by omega
      simp [sendLoop, h, hok, backoffPrefix_zero]
  · simp only [RateLimitedRun] at hpre
    obtain ⟨r1, v1, h1, hs1, rfl⟩ := hpre
    refine ⟨?_, ?_, ?_⟩
    · intro e w2 h
      simp [sendLoop, h1, hs1, h, backoffPrefix_one]
    · intro r w2 h hs hne
      simp [sendLoop, h1, hs1, h, hs, hne, backoffPrefix_one]
    · intro r w2 h hlo hhi
      have hok : ¬ (r.StatusCode < 200 ∨ r.StatusCode ≥ 300) := by omega
      simp [sendLoop, h1, hs1, h, hok, backoffPrefix_one]
  · simp only [RateLimitedRun] at hpre
    obtain ⟨r1, v1, h1, hs1, r2, v2, h2, hs2, rfl⟩ := hpre
    refine ⟨?_, ?_, ?_⟩
    · intro e w2 h
      simp [sendLoop, h1, hs1, h2, hs2, h, backoffPrefix_two]
    · intro r w2 h hs hne
      simp [sendLoop, h1, hs1, h2, hs2, h, hs, hne, backoffPrefix_two]
    · intro r w2 h hlo hhi
      have hok : ¬ (r.StatusCode < 200 ∨ r.StatusCode ≥ 300) := by omega
      simp [sendLoop, h1, hs1, h2, hs2, h, hok, backoffPrefix_two]

/-- C12: after any number `k < 3` of rate-limited attempts (each followed by its
backoff sleep), if the next attempt fails in the HTTP client, `WriteMetrics`
returns the request error; if it returns a status outside 200-299 other than
429, `WriteMetrics` returns the status error, which contains the response body;
if it returns a 2xx status, `WriteMetrics` returns no error.  In all three
cases that attempt is the last thing done: no further request and no sleep
follows it. -/
theorem C12_no_retry_outside_rate_limit {σ : Type} (env : WriterEnv σ) (config : Config)
    (metrics : List (Option MetricFamily)) (ts : List TimeSeries) (data : List Nat)
    (k : Nat) (w w1 : σ)
    (hts : buildTimeseries env.clock metrics = .ok ts)
    (hm : env.marshal ts = .ok data)
    (hu : env.checkURL (config.PrometheusURL ++ "/push") = .ok ())
    (hk : k < 3)
    (hpre : RateLimitedRun env.doReq (pushRequest env config (env.snappyEncode data)) k w w1) :
    (∀ e w2, env.doReq (pushRequest env config (env.snappyEncode data)) w1 = (.error e, w2) →
      WriteMetrics env config metrics w =
        .ok { err := some ("failed to send request: " ++ e), world := w2,
              trace := backoffPrefix k ++ [Event.request] }) ∧
    (∀ r w2, env.doReq (pushRequest env config (env.snappyEncode data)) w1 = (.ok r, w2) →
      (r.StatusCode < 200 ∨ r.StatusCode ≥ 300) → r.StatusCode ≠ 429 →
      WriteMetrics env config metrics w =
        .ok { err := some ("remote write failed with status " ++ toString r.StatusCode ++ ": " ++
                r.Body),
              world := w2, trace := backoffPrefix k ++ [Event.request] }) ∧
    (∀ r w2, env.doReq (pushRequest env config (env.snappyEncode data)) w1 = (.ok r, w2) →
      200 ≤ r.StatusCode → r.StatusCode < 300 →
      WriteMetrics env config metrics w =
        .ok { err := none, world := w2, trace := backoffPrefix k ++ [Event.request] }) := by
  rw [WriteMetrics_sends env config metrics w ts data hts hm hu]
  obtain ⟨h1, h2, h3⟩ := sendLoop_after_rate_limit env.doReq _ k w w1 hk hpre
  refine ⟨?_, ?_, ?_⟩
  · intro e w2 h
    rw [h1 e w2 h]
  · intro r w2 h hs hne
    rw [h2 r w2 h hs hne]
  · intro r w2 h hlo hhi
    rw [h3 r w2 h hlo hhi]

/-- C12 witness: one 429 and then a 503 with body "unavailable": two requests,
the one backoff sleep between them, and the status error with the body. -/
theorem C12_no_retry_outside_rate_limit_witness :
    WriteMetrics (scriptedEnv 1000) ⟨"https://prom.example/api/prom", "user", "token"⟩
        (ExportMetrics 1000 { DownloadMbps := 171 / 2, UploadMbps := 423 / 10 }
          ⟨"fra", "acme", "pro"⟩)
        [.ok ⟨429, "rate limited"⟩, .ok ⟨503, "unavailable"⟩, .ok ⟨200, ""⟩] =
      .ok { err := some "remote write failed with status 503: unavailable",
            world := [.ok ⟨200, ""⟩],
            trace := [Event.request, Event.sleep (1 * Second), Event.request] } :=
  (C12_no_retry_outside_rate_limit (scriptedEnv 1000)
    ⟨"https://prom.example/api/prom", "user", "token"⟩
    (ExportMetrics 1000 { DownloadMbps := 171 / 2, UploadMbps := 423 / 10 }
      ⟨"fra", "acme", "pro"⟩)
    (seriesFrom (fun k => 1000 + k) 0 (recognizedMetrics
      (ExportMetrics 1000 { DownloadMbps := 171 / 2, UploadMbps := 423 / 10 }
        ⟨"fra", "acme", "pro"⟩)))
    [5] 1
    [.ok ⟨429, "rate limited"⟩, .ok ⟨503, "unavailable"⟩, .ok ⟨200, ""⟩]
    [.ok ⟨503, "unavailable"⟩, .ok ⟨200, ""⟩]
    rfl rfl rfl (by decide)
    ⟨⟨429, "rate limited"⟩, [.ok ⟨503, "unavailable"⟩, .ok ⟨200, ""⟩], rfl, rfl, rfl⟩).2.1
    ⟨503, "unavailable"⟩ [.ok ⟨200, ""⟩] rfl (Or.inr (by decide)) (by decide)

/-! ### Timestamps in the conversion -/

theorem metricValue_clearTimestamp (x : Metric) :
    metricValue { x with TimestampMs := none } = metricValue x := rfl

theorem metricLoop_clearTimestamp (clock : Nat → Int) (name : Option String)
    (ms : List (Option Metric)) (st : List TimeSeries × Nat) :
    metricLoop clock name (ms.map clearTimestamp) st = metricLoop clock name ms st := by
  induction ms generalizing st with
  | nil => rfl
  | cons m rest ih =>
    obtain ⟨timeseries, k⟩ := st
    cases name with
    | none => simp [metricLoop]
    | some n =>
      cases m with
      | none => simp [metricLoop, clearTimestamp]
      | some x =>
        simp only [List.map_cons, clearTimestamp, Option.map_some', metricLoop,
          metricValue_clearTimestamp]
        cases appendLabels x.Label [{ Name := "__name__", Value := n }] with
        | error e => rfl
        | ok labels =>
          cases hv : metricValue x with
          | error e => rfl
          | ok v =>
            cases v with
            | none => exact ih _
            | some value => exact ih _

theorem familyLoop_clearTimestamps (clock : Nat → Int) (metrics : List (Option MetricFamily))
    (st : List TimeSeries × Nat) :
    familyLoop clock (clearTimestamps metrics) st = familyLoop clock metrics st := by
  induction metrics generalizing st with
  | nil => rfl
  | cons mf rest ih =>
    cases mf with
    | none => simp [clearTimestamps, familyLoop]
    | some f =>
      have ih' : ∀ st, familyLoop clock (List.map (fun mf => Option.map
          (fun f => { f with Metric := f.Metric.map clearTimestamp }) mf) rest) st =
          familyLoop clock rest st := ih
      simp only [clearTimestamps, List.map_cons, Option.map_some', familyLoop,
        metricLoop_clearTimestamp]
      cases metricLoop clock f.Name f.Metric st with
      | error e => rfl
      | ok st1 => exact ih' st1

theorem buildTimeseries_clearTimestamps (clock : Nat → Int)
    (metrics : List (Option MetricFamily)) :
    buildTimeseries clock (clearTimestamps metrics) = buildTimeseries clock metrics := by
  simp only [buildTimeseries, familyLoop_clearTimestamps]

theorem sampleTimestamps_seriesFrom (clock : Nat → Int) (k : Nat) (ms : List (String × Metric)) :
    sampleTimestamps (seriesFrom clock k ms) =
      (List.range ms.length).map fun i => [clock (k + i)] := by
  induction ms generalizing k with
  | nil => rfl
  | cons m rest ih =>
    have hstep : seriesFrom clock k (m :: rest) =
        seriesOf m.1 m.2 (clock k) :: seriesFrom clock (k + 1) rest := by
      simp [seriesFrom, List.enumFrom_cons]
    have ih' := ih (k + 1)
    simp only [sampleTimestamps] at ih' ⊢
    rw [hstep, List.map_cons, ih', List.length_cons, List.range_succ_eq_map, List.map_cons,
      List.map_map]
    simp [seriesOf, Function.comp_def, Nat.add_assoc, Nat.add_comm 1]

/-- The sample timestamps of whatever the conversion returns are the successive
clock readings. -/
theorem buildTimeseries_timestamps (clock : Nat → Int) (metrics : List (Option MetricFamily))
    (ts : List TimeSeries) (h : buildTimeseries clock metrics = .ok ts) :
    sampleTimestamps ts = (List.range ts.length).map fun i => [clock i] := by
  have hset : pointersSet metrics = true := by
    by_contra hne
    have hfalse : pointersSet metrics = false := by simpa using hne
    rw [(buildTimeseries_panics_iff clock metrics).mpr hfalse] at h
    cases h
  have hts : ts = seriesFrom clock 0 (recognizedMetrics metrics) := by
    simp [buildTimeseries, familyLoop_ok clock metrics [] 0 hset] at h
    exact h.symm
  rw [hts, sampleTimestamps_seriesFrom, seriesFrom_length]
  simp

/-- C14: two lists of metric families that differ only in the `TimestampMs`
fields of their metrics are converted, under the same clock, to the same result;
the sample timestamp of the `i`-th series built is the `i`-th clock reading taken
during the conversion, and for the output of `ExportMetrics` the five sample
timestamps are the clock readings whatever capture timestamp was stored. -/
theorem C14_timestamp_independence (clock : Nat → Int)
    (metrics metrics' : List (Option MetricFamily))
    (h : clearTimestamps metrics = clearTimestamps metrics') :
    buildTimeseries clock metrics = buildTimeseries clock metrics' ∧
    (∀ ts, buildTimeseries clock metrics = .ok ts →
      sampleTimestamps ts = (List.range ts.length).map fun i => [clock i]) ∧
    ∀ (now : Int) (result : TestResult) (labels : MetricLabels),
      ∃ ts, buildTimeseries clock (ExportMetrics now result labels) = .ok ts ∧
        sampleTimestamps ts = [[clock 0], [clock 1], [clock 2], [clock 3], [clock 4]] := by
  refine ⟨?_, ?_, ?_⟩
  · rw [← buildTimeseries_clearTimestamps clock metrics, h,
      buildTimeseries_clearTimestamps clock metrics']
  · intro ts hts
    exact buildTimeseries_timestamps clock metrics ts hts
  · intro now result labels
    exact ⟨_, rfl, rfl⟩

/-- C14 witness: the families of one measurement captured at 1000 and at 2000
differ only in their timestamps; converted under the same clock they give the
same series. -/
theorem C14_timestamp_independence_witness :
    buildTimeseries (fun k => 5000 + k)
        (ExportMetrics 1000 { DownloadMbps := 171 / 2 } ⟨"fra", "acme", "pro"⟩) =
      buildTimeseries (fun k => 5000 + k)
        (ExportMetrics 2000 { DownloadMbps := 171 / 2 } ⟨"fra", "acme", "pro"⟩) ∧
    (∀ ts, buildTimeseries (fun k => 5000 + k)
        (ExportMetrics 1000 { DownloadMbps := 171 / 2 } ⟨"fra", "acme", "pro"⟩) = .ok ts →
      sampleTimestamps ts =
        (List.range ts.length).map fun i => [(fun k : Nat => (5000 : Int) + k) i]) ∧
    ∀ (now : Int) (result : TestResult) (labels : MetricLabels),
      ∃ ts, buildTimeseries (fun k => 5000 + k) (ExportMetrics now result labels) = .ok ts ∧
        sampleTimestamps ts =
          [[(fun k : Nat => (5000 : Int) + k) 0], [(fun k : Nat => (5000 : Int) + k) 1],
           [(fun k : Nat => (5000 : Int) + k) 2], [(fun k : Nat => (5000 : Int) + k) 3],
           [(fun k : Nat => (5000 : Int) + k) 4]] :=
  C14_timestamp_independence (fun k => 5000 + k)
    (ExportMetrics 1000 { DownloadMbps := 171 / 2 } ⟨"fra", "acme", "pro"⟩)
    (ExportMetrics 2000 { DownloadMbps := 171 / 2 } ⟨"fra", "acme", "pro"⟩)
    rfl

/-! ### The transmission guard of `main` -/

theorem report_all_zero {τ : Type} (cfg : AppConfig) (now : Int) (env : WriterEnv τ) (net : τ)
    (r : TestResult) (calls : List Bool) (hd : r.DownloadMbps = 0) (hu : r.UploadMbps = 0) :
    report cfg now env net r calls =
      { termination := .returned, written := [], trace := [], calls := calls } := by
  simp [report, hd, hu]

theorem report_written {τ : Type} (cfg : AppConfig) (now : Int) (env : WriterEnv τ) (net : τ)
    (r : TestResult) (calls : List Bool) (h : r.DownloadMbps ≠ 0 ∨ r.UploadMbps ≠ 0) :
    (report cfg now env net r calls).written =
      [ExportMetrics now r ⟨cfg.Metrics.Location, cfg.Metrics.ISPName, cfg.Metrics.PackageName⟩] := by
  have hg : ¬ (r.DownloadMbps = 0 ∧ r.UploadMbps = 0) := by
    rintro ⟨h1, h2⟩
    rcases h with h | h
    · exact h h1
    · exact h h2
  simp only [report, if_neg hg]
  cases WriteMetrics env
      { PrometheusURL := cfg.Prometheus.URL, Username := cfg.Prometheus.Username,
        Password := cfg.Prometheus.Password }
      (ExportMetrics now r ⟨cfg.Metrics.Location, cfg.Metrics.ISPName, cfg.Metrics.PackageName⟩)
      net with
  | error p => rfl
  | ok out =>
    cases hout : out.err with
    | none => simp [hout]
    | some e => simp [hout]

/-- C13: `main` makes no call of `WriteMetrics` (and so no HTTP request) when
`RunBothTests` returns an error or returns a measurement whose `DownloadMbps` and
`UploadMbps` are both zero; when it returns a measurement with one of them
non-zero, `main` calls `WriteMetrics` once, on the families `ExportMetrics` built
from it; so whenever `WriteMetrics` is called, at least one of `DownloadMbps` and
`UploadMbps` is non-zero. -/
theorem C13_transmission_guard {σ τ : Type} (cenv : ConfigEnv) (configPath : String)
    (exec : List String → σ → CmdOutput × σ)
    (unmarshal : String → Except String Iperf3Output)
    (now : Int) (env : WriterEnv τ) (w : σ) (net : τ) :
    (∀ cfg e, LoadConfigWithDefaults cenv configPath = .ok (.ok cfg) →
      (RunBothTests
        (RunTest exec unmarshal cfg.Iperf3.Server cfg.Iperf3.Port cfg.Iperf3.Duration) w).res
        = .error e →
      (main cenv configPath exec unmarshal now env w net).written = [] ∧
      (main cenv configPath exec unmarshal now env w net).trace = []) ∧
    (∀ cfg r, LoadConfigWithDefaults cenv configPath = .ok (.ok cfg) →
      (RunBothTests
        (RunTest exec unmarshal cfg.Iperf3.Server cfg.Iperf3.Port cfg.Iperf3.Duration) w).res
        = .ok r →
      r.DownloadMbps = 0 → r.UploadMbps = 0 →
      (main cenv configPath exec unmarshal now env w net).written = [] ∧
      (main cenv configPath exec unmarshal now env w net).trace = []) ∧
    (∀ cfg r, LoadConfigWithDefaults cenv configPath = .ok (.ok cfg) →
      (RunBothTests
        (RunTest exec unmarshal cfg.Iperf3.Server cfg.Iperf3.Port cfg.Iperf3.Duration) w).res
        = .ok r →
      (r.DownloadMbps ≠ 0 ∨ r.UploadMbps ≠ 0) →
      (main cenv configPath exec unmarshal now env w net).written =
        [ExportMetrics now r
          ⟨cfg.Metrics.Location, cfg.Metrics.ISPName, cfg.Metrics.PackageName⟩]) ∧
    ((main cenv configPath exec unmarshal now env w net).written ≠ [] →
      ∃ cfg r, LoadConfigWithDefaults cenv configPath = .ok (.ok cfg) ∧
        (RunBothTests
          (RunTest exec unmarshal cfg.Iperf3.Server cfg.Iperf3.Port cfg.Iperf3.Duration) w).res
          = .ok r ∧
        (r.DownloadMbps ≠ 0 ∨ r.UploadMbps ≠ 0)) := by
  refine ⟨?_, ?_, ?_, ?_⟩
  · intro cfg e hload hres
    simp [main, hload, hres]
  · intro cfg r hload hres hd hu
    simp [main, hload, hres, report_all_zero cfg now env net r _ hd hu]
  · intro cfg r hload hres hnz
    simp only [main, hload, hres]
    exact report_written cfg now env net r _ hnz
  · intro hw
    rcases hload : LoadConfigWithDefaults cenv configPath with p | ⟨err | cfg⟩
    · simp [main, hload] at hw
    · simp [main, hload] at hw
    · rcases hres : (RunBothTests
        (RunTest exec unmarshal cfg.Iperf3.Server cfg.Iperf3.Port cfg.Iperf3.Duration) w).res
        with e | r
      · simp [main, hload, hres] at hw
      · refine ⟨cfg, r, rfl, hres, ?_⟩
        by_contra hzero
        have hd : r.DownloadMbps = 0 := by
          by_contra hd
          exact hzero (Or.inl hd)
        have hu : r.UploadMbps = 0 := by
          by_contra hu
          exact hzero (Or.inr hu)
        simp [main, hload, hres, report_all_zero cfg now env net r _ hd hu] at hw

/-! ### The path handling of `LoadConfig` -/

theorem utf8ByteSize_pos_of_ne_empty (s : String) (h : s ≠ "") : 0 < s.utf8ByteSize := by
  obtain ⟨cs⟩ := s
  cases cs with
  | nil => exact absurd rfl h
  | cons c rest =>
    have hc : 0 < c.utf8Size := Char.utf8Size_pos c
    simp only [String.utf8ByteSize, String.utf8ByteSize.go]
    omega

/-- The path handling of `LoadConfig` panics exactly on the paths that are one
byte long. -/
theorem expandPath_panics_iff (env : ConfigEnv) (configPath : String) :
    (∃ msg, expandPath env configPath = .error msg) ↔ configPath.utf8ByteSize = 1 := by
  by_cases hempty : configPath = ""
  · subst hempty
    constructor
    · rintro ⟨msg, h⟩
      have hp : hasHomePrefix "ibenc.yaml" = .ok false := rfl
      simp [expandPath, hp] at h
    · intro h
      exact absurd h (by decide)
  · have hpos := utf8ByteSize_pos_of_ne_empty configPath hempty
    by_cases hlen : 2 ≤ configPath.utf8ByteSize
    · constructor
      · rintro ⟨msg, h⟩
        simp only [expandPath, if_neg hempty, hasHomePrefix, if_pos hlen] at h
        split at h
        · rename_i heq
          cases heq
        · split at h <;> cases h
        · cases h
      · intro h
        omega
    · constructor
      · intro _
        omega
      · intro _
        refine ⟨"runtime error: slice bounds out of range [:2] with length " ++
          toString configPath.utf8ByteSize, ?_⟩
        simp only [expandPath, if_neg hempty, hasHomePrefix, if_neg hlen]

/-- C15 (the code at the failing input): for the config path `a`, one byte long,
the slice `configPath[0:2]` is out of range and `LoadConfig` panics, as does
`main`, before any file is read; the empty path is replaced by `ibenc.yaml`, and
a path of two bytes or more goes through the prefix test. -/
theorem C15_one_byte_path_panics :
    expandPath bareConfigEnv "a" =
        .error "runtime error: slice bounds out of range [:2] with length 1" ∧
      LoadConfig bareConfigEnv "a" =
        .error "runtime error: slice bounds out of range [:2] with length 1" ∧
      LoadConfigWithDefaults bareConfigEnv "a" =
        .error "runtime error: slice bounds out of range [:2] with length 1" ∧
      expandPath bareConfigEnv "" = .ok (.ok "ibenc.yaml") ∧
      expandPath bareConfigEnv "~/ibenc.yaml" = .ok (.ok "/home/u/ibenc.yaml") ∧
      expandPath bareConfigEnv "ab" = .ok (.ok "ab") := by
  exact ⟨rfl, rfl, rfl, rfl, rfl, rfl⟩

/-- The transmission guard on concrete runs: when every probe fails, `main` ends
in `log.Fatalf` without a call of `WriteMetrics`; when the download fails and the
upload reports no throughput, it returns without a call; when both directions
report 85.5 Mbps, it calls `WriteMetrics` once and one request is made. -/
theorem transmission_guard_examples :
    (main fileConfigEnv "ibenc.yaml" scriptedExec sampleUnmarshal 1000 (scriptedEnv 1000)
        [] [.ok ⟨200, ""⟩]).termination
        = .fatal "Test failed: both download and upload tests failed" ∧
    (main fileConfigEnv "ibenc.yaml" scriptedExec sampleUnmarshal 1000 (scriptedEnv 1000)
        [] [.ok ⟨200, ""⟩]).written = [] ∧
    (main fileConfigEnv "ibenc.yaml" scriptedExec sampleUnmarshal 1000 (scriptedEnv 1000)
        [⟨"", some "exit status 1"⟩, ⟨"", some "exit status 1"⟩, ⟨"idle", none⟩]
        [.ok ⟨200, ""⟩]).termination = .returned ∧
    (main fileConfigEnv "ibenc.yaml" scriptedExec sampleUnmarshal 1000 (scriptedEnv 1000)
        [⟨"", some "exit status 1"⟩, ⟨"", some "exit status 1"⟩, ⟨"idle", none⟩]
        [.ok ⟨200, ""⟩]).written = [] ∧
    (main fileConfigEnv "ibenc.yaml" scriptedExec sampleUnmarshal 1000 (scriptedEnv 1000)
        [⟨"fast", none⟩, ⟨"fast", none⟩] [.ok ⟨200, ""⟩]).termination = .returned ∧
    (main fileConfigEnv "ibenc.yaml" scriptedExec sampleUnmarshal 1000 (scriptedEnv 1000)
        [⟨"fast", none⟩, ⟨"fast", none⟩] [.ok ⟨200, ""⟩]).written.length = 1 ∧
    (main fileConfigEnv "ibenc.yaml" scriptedExec sampleUnmarshal 1000 (scriptedEnv 1000)
        [⟨"fast", none⟩, ⟨"fast", none⟩] [.ok ⟨200, ""⟩]).trace = [Event.request] ∧
    (main fileConfigEnv "a" scriptedExec sampleUnmarshal 1000 (scriptedEnv 1000)
        [⟨"fast", none⟩, ⟨"fast", none⟩] [.ok ⟨200, ""⟩]).termination
        = .panicked "runtime error: slice bounds out of range [:2] with length 1" := by
  refine ⟨?_, ?_, ?_, ?_, ?_, ?_, ?_, rfl⟩ <;>
    simp [main, LoadConfigWithDefaults, LoadConfig, expandPath, hasHomePrefix, fileConfigEnv,
      Validate, applyEnvOverrides, RunBothTests, downloadLoop, uploadLoop, combine, RunTest,
      scriptedExec, sampleUnmarshal, parseReport, report, WriteMetrics, buildTimeseries,
      familyLoop, metricLoop, appendLabels, metricValue, ExportMetrics, createGaugeMetric,
      scriptedEnv, scriptedClient, sendLoop, pushRequest, String.utf8ByteSize,
      String.utf8ByteSize.go, Char.utf8Size, divFloat64_85500000, divFloat64_zero]

end Ibenc
